import Mathlib

/-!
Verification development for the KYC transcript-extraction core
(`src/transcript_processor.py`, `src/information_extractor.py`, `src/models.py`).

The Python code is regex-driven, so we first build a small executable
backtracking regular-expression engine over `List Char` that mirrors the
semantics of Python's `re` module for the pattern subset the program uses
(leftmost search, ordered alternation, greedy quantifiers, a single capturing
group, `^` anchoring without MULTILINE, `\b` word boundaries, IGNORECASE).
Every pattern literal of the source is transcribed into a `RE` syntax tree.
-/

/- `Rat.mul`, `Rat.add` and `Rat.inv` are `@[irreducible]` in Batteries, which
only blocks elaboration-time reduction (the kernel itself ignores
reducibility); theorems that evaluate concrete rational arithmetic are
prefixed with `attribute [local semireducible] Rat.mul Rat.add Rat.inv in`
so that `decide` can evaluate them. -/

/-- Python `str.split('\n')` (keeps empty pieces, `"" ↦ [""]`). -/
def pySplitNlAux : List Char → List Char → List String
  | acc, [] => [⟨acc.reverse⟩]
  | acc, c :: cs =>
    if c = '\n' then (⟨acc.reverse⟩ : String) :: pySplitNlAux [] cs
    else pySplitNlAux (c :: acc) cs

def pySplitNl (s : String) : List String := pySplitNlAux [] s.data

/-- Python `\s` (ASCII range, which is all the program's inputs use). -/
def pyIsSpace (c : Char) : Bool :=
  c = ' ' || c = '\t' || c = '\n' || c = '\r' || c = '\x0b' || c = '\x0c'

/-- Python `\w`: word characters `[A-Za-z0-9_]`. -/
def pyIsWord (c : Char) : Bool :=
  ('A' ≤ c && c ≤ 'Z') || ('a' ≤ c && c ≤ 'z') || ('0' ≤ c && c ≤ '9') || c = '_'

/-- Python `\d` (ASCII `'0'`..`'9'`, i.e. code points 48..57). -/
def pyIsDigit (c : Char) : Bool := 48 ≤ c.toNat && c.toNat ≤ 57

def pyIsAlpha (c : Char) : Bool := ('A' ≤ c && c ≤ 'Z') || ('a' ≤ c && c ≤ 'z')

/-- Transcribes `str.strip()`: remove leading and trailing whitespace. -/
def pyStripL : List Char → List Char
  | [] => []
  | c :: cs => if pyIsSpace c then pyStripL cs else c :: cs

def pyStripChars (l : List Char) : List Char :=
  (pyStripL ((pyStripL l.reverse).reverse))

def pyStrip (s : String) : String := ⟨pyStripChars s.data⟩

/-- Transcribes `str.lower()` (ASCII). -/
def pyLower (s : String) : String := ⟨s.data.map Char.toLower⟩

/-- Transcribes `str.title()`: uppercase a cased character that follows an uncased one,
lowercase cased characters that follow cased ones. -/
def pyTitleAux : Bool → List Char → List Char
  | _, [] => []
  | prevCased, c :: cs =>
    if pyIsAlpha c then
      (if prevCased then c.toLower else c.toUpper) :: pyTitleAux true cs
    else
      c :: pyTitleAux false cs

def pyTitle (s : String) : String := ⟨pyTitleAux false s.data⟩

/-- Python `sub in s` (substring containment). -/
def pyContainsAux (pat : List Char) : List Char → Bool
  | [] => pat.isPrefixOf []
  | c :: cs => pat.isPrefixOf (c :: cs) || pyContainsAux pat cs

def pyContains (s sub : String) : Bool := pyContainsAux sub.data s.data

/-- Python `str.split()` with no argument: split on whitespace runs, drop empties. -/
def pySplitWsAux : List Char → List Char → List (List Char)
  | acc, [] => if acc = [] then [] else [acc.reverse]
  | acc, c :: cs =>
    if pyIsSpace c then
      (if acc = [] then pySplitWsAux [] cs else acc.reverse :: pySplitWsAux [] cs)
    else pySplitWsAux (c :: acc) cs

def pySplitWs (s : String) : List String :=
  (pySplitWsAux [] s.data).map (fun l => ⟨l⟩)

/-- Character-class items of the regex patterns. -/
inductive ClsItem where
  | ch (c : Char)
  | range (lo hi : Char)
deriving DecidableEq

/-- Regex syntax trees for the pattern subset the program uses.
`{lo,hi}` repetitions are expanded at construction time. -/
inductive RE where
  | eps
  | dot
  | char (c : Char)
  | cls (pos : Bool) (items : List ClsItem)
  | alt (a b : RE)
  | cat (a b : RE)
  | star (a : RE)
  | group (a : RE)
  | bos
  | wb
deriving DecidableEq

def clsItemTest (c : Char) : ClsItem → Bool
  | .ch a => c = a
  | .range lo hi => lo ≤ c && c ≤ hi

def clsTestPlain (items : List ClsItem) (c : Char) : Bool :=
  items.any (clsItemTest c)

/-- Class membership under optional IGNORECASE (Python folds both ways). -/
def clsTest (ci : Bool) (pos : Bool) (items : List ClsItem) (c : Char) : Bool :=
  let hit := clsTestPlain items c ||
    (ci && (clsTestPlain items c.toLower || clsTestPlain items c.toUpper))
  if pos then hit else !hit

/-- Literal character comparison under optional IGNORECASE. -/
def charCI (ci : Bool) (a b : Char) : Bool :=
  if ci then a.toLower = b.toLower else a = b

def optIsWord : Option Char → Bool
  | none => false
  | some c => pyIsWord c

/-- Backtracking matcher in continuation-passing style.  `prev` is the
character before the current position (for `^` and `\b`), `cap` the single
capture slot, `k` the continuation.  Structural recursion on `fuel` (so that
the kernel can evaluate it); callers pass a budget that provably dwarfs any
possible recursion depth, and each `star` iteration must consume input. -/
def mc (ci : Bool) : Nat → RE → Option Char → List Char → Option (List Char) →
    (Option (List Char) → Option Char → List Char → Option (Option (List Char) × List Char)) →
    Option (Option (List Char) × List Char)
  | 0, _, _, _, _, _ => none
  | _ + 1, .eps, prev, s, cap, k => k cap prev s
  | _ + 1, .dot, _, s, cap, k =>
    match s with
    | [] => none
    | x :: xs => if x = '\n' then none else k cap (some x) xs
  | _ + 1, .char c, _, s, cap, k =>
    match s with
    | [] => none
    | x :: xs => if charCI ci c x then k cap (some x) xs else none
  | _ + 1, .cls pos items, _, s, cap, k =>
    match s with
    | [] => none
    | x :: xs => if clsTest ci pos items x then k cap (some x) xs else none
  | fuel + 1, .alt a b, prev, s, cap, k =>
    match mc ci fuel a prev s cap k with
    | some r => some r
    | none => mc ci fuel b prev s cap k
  | fuel + 1, .cat a b, prev, s, cap, k =>
    mc ci fuel a prev s cap (fun cap' p' s' => mc ci fuel b p' s' cap' k)
  | fuel + 1, .star a, prev, s, cap, k =>
    match mc ci fuel a prev s cap (fun cap' p' s' =>
        if s'.length < s.length then mc ci fuel (.star a) p' s' cap' k else none) with
    | some r => some r
    | none => k cap prev s
  | fuel + 1, .group a, prev, s, _, k =>
    mc ci fuel a prev s none (fun _ p' s' => k (some (s.take (s.length - s'.length))) p' s')
  | _ + 1, .bos, prev, s, cap, k =>
    if prev.isNone then k cap prev s else none
  | _ + 1, .wb, prev, s, cap, k =>
    if optIsWord prev ≠ optIsWord s.head? then k cap prev s else none

/-- Syntactic size of a pattern, used to compute a fuel budget. -/
def reSize : RE → Nat
  | .alt a b => 1 + reSize a + reSize b
  | .cat a b => 1 + reSize a + reSize b
  | .star a => 1 + reSize a
  | .group a => 1 + reSize a
  | _ => 1

/-- Run the matcher anchored at the current position. -/
def reMatchRoot (ci : Bool) (r : RE) (prev : Option Char) (s : List Char) :
    Option (Option (List Char) × List Char) :=
  mc ci ((reSize r + 2) * (s.length + 3)) r prev s none (fun cap _ rest => some (cap, rest))

/-- Transcribes `re.match(pattern, text)` as a test (anchored at position 0). -/
def reMatchB (ci : Bool) (r : RE) (s : String) : Bool :=
  (reMatchRoot ci r none s.data).isSome

/-- Transcribes `re.search`: leftmost match; returns `group(1)` if the pattern has a
capturing group, else `group(0)` (mirrors `_extract_with_pattern`). -/
def reFindAux (ci : Bool) (r : RE) : Option Char → List Char → Option (List Char)
  | prev, s =>
    match reMatchRoot ci r prev s with
    | some (cap, rest) => some (cap.getD (s.take (s.length - rest.length)))
    | none =>
      match s with
      | [] => none
      | c :: cs => reFindAux ci r (some c) cs

def reFind (ci : Bool) (r : RE) (s : String) : Option String :=
  (reFindAux ci r none s.data).map (fun l => ⟨l⟩)

/-- Transcribes `re.search` as a boolean test. -/
def reTest (ci : Bool) (r : RE) (s : String) : Bool :=
  (reFind ci r s).isSome

/-- Transcribes `re.sub(pattern, repl, s)`: replace all non-overlapping matches, scanning
left to right.  (The program's patterns never match the empty string; a
zero-width match is treated as no match at that position.) -/
def reSubAux (ci : Bool) (r : RE) (repl : List Char) : Nat → Option Char → List Char → List Char
  | 0, _, s => s
  | fuel + 1, prev, s =>
    match reMatchRoot ci r prev s with
    | some (_, rest) =>
      if rest.length < s.length then
        repl ++ reSubAux ci r repl fuel (s.take (s.length - rest.length)).getLast? rest
      else
        match s with
        | [] => []
        | c :: cs => c :: reSubAux ci r repl fuel (some c) cs
    | none =>
      match s with
      | [] => []
      | c :: cs => c :: reSubAux ci r repl fuel (some c) cs

def reSub (ci : Bool) (r : RE) (repl : String) (s : String) : String :=
  ⟨reSubAux ci r repl.data (s.data.length + 1) none s.data⟩

/-! Combinators used to transcribe the Python pattern literals. -/

def lit (s : String) : RE := s.data.foldr (fun c r => .cat (.char c) r) .eps

def alts : List RE → RE
  | [] => .eps
  | [r] => r
  | r :: rs => .alt r (alts rs)

def seqs : List RE → RE
  | [] => .eps
  | [r] => r
  | r :: rs => .cat r (seqs rs)

def qplus (r : RE) : RE := .cat r (.star r)

def qopt (r : RE) : RE := .alt r .eps

/-- Transcribes `{0,n}` greedy. -/
def upTo : Nat → RE → RE
  | 0, _ => .eps
  | n + 1, r => .alt (.cat r (upTo n r)) .eps

/-- exactly `n` copies. -/
def exactly : Nat → RE → RE
  | 0, _ => .eps
  | n + 1, r => .cat r (exactly n r)

/-- Transcribes `{n,}` greedy. -/
def atLeast (n : Nat) (r : RE) : RE := .cat (exactly n r) (.star r)

def clsD : RE := .cls true [.range '0' '9']
def clsND : RE := .cls false [.range '0' '9']
def clsS : RE := .cls true [.ch ' ', .ch '\t', .ch '\n', .ch '\r', .ch '\x0b', .ch '\x0c']
def clsUpper : RE := .cls true [.range 'A' 'Z']
def clsLower : RE := .cls true [.range 'a' 'z']

/-!
## `transcript_processor.py`

`TranscriptProcessor` with its optional spaCy model abstracted as an
injectable capability: `extract_key_topics` receives
`tcap : Option (String → List String)` standing for the loaded model's
entity/noun-chunk output (`None` models the missing-model branch).
-/

/-- Transcribes `SpeakerPattern` rows of `TranscriptProcessor.speaker_patterns`. -/
structure SpeakerPattern where
  pattern : RE
  speaker_type : String
deriving DecidableEq

/-- Transcribes `r"^(Advisor|FA|Financial Advisor)[:]\s*"` -/
def advisorPat : RE :=
  seqs [.bos, .group (alts [lit "Advisor", lit "FA", lit "Financial Advisor"]),
    .cls true [.ch ':'], .star clsS]

/-- Transcribes `r"^(Client|Customer|Mr\.|Mrs\.|Ms\.)[:]\s*"` -/
def clientPat : RE :=
  seqs [.bos, .group (alts [lit "Client", lit "Customer", lit "Mr.", lit "Mrs.", lit "Ms."]),
    .cls true [.ch ':'], .star clsS]

/-- Transcribes `r"^([A-Z][a-z]+)[:]\s*"` -/
def genericNamePat : RE :=
  seqs [.bos, .group (.cat clsUpper (qplus clsLower)), .cls true [.ch ':'], .star clsS]

def speaker_patterns : List SpeakerPattern :=
  [⟨advisorPat, "advisor"⟩, ⟨clientPat, "client"⟩, ⟨genericNamePat, "unknown"⟩]

/-- Transcribes `r"\?"` -/
def qIndicator1 : RE := lit "?"

/-- Transcribes `r"^(What|How|When|Where|Why|Who|Which|Can you|Could you|Would you|Do you|Are you|Have you)"` -/
def qIndicator2 : RE :=
  seqs [.bos, .group (alts [lit "What", lit "How", lit "When", lit "Where", lit "Why",
    lit "Who", lit "Which", lit "Can you", lit "Could you", lit "Would you",
    lit "Do you", lit "Are you", lit "Have you"])]

/-- Transcribes `r"(tell me|explain|describe|share)"` -/
def qIndicator3 : RE :=
  .group (alts [lit "tell me", lit "explain", lit "describe", lit "share"])

def question_indicators : List RE := [qIndicator1, qIndicator2, qIndicator3]

/-- Transcribes `r"\s+"` -/
def wsRunPat : RE := qplus clsS

/-- Transcribes `r"\[inaudible\]|\[unclear\]|\[crosstalk\]"` -/
def artifactPat : RE :=
  alts [lit "[inaudible]", lit "[unclear]", lit "[crosstalk]"]

/-- Transcribes `r"\[\d{2}:\d{2}:\d{2}\]"` -/
def timestampPat : RE :=
  seqs [.char '[', exactly 2 clsD, .char ':', exactly 2 clsD, .char ':',
    exactly 2 clsD, .char ']']

/-- Transcribes `r"\b(um|uh|ah|er|hmm)\b"` -/
def filler1Pat : RE :=
  seqs [.wb, .group (alts [lit "um", lit "uh", lit "ah", lit "er", lit "hmm"]), .wb]

/-- Transcribes `r"\b(you know|like|basically|actually)\b"` -/
def filler2Pat : RE :=
  seqs [.wb, .group (alts [lit "you know", lit "like", lit "basically", lit "actually"]), .wb]

/-- Transcribes `TranscriptProcessor.clean_transcript`: the six `re.sub`/strip passes,
in source order (whitespace collapse, artifact removal, timestamp removal,
two filler passes, final collapse and strip). -/
def clean_transcript (raw_transcript : String) : String :=
  let c1 := reSub false wsRunPat " " raw_transcript
  let c2 := reSub true artifactPat "" c1
  let c3 := reSub false timestampPat "" c2
  let c4 := reSub true filler1Pat "" c3
  let c5 := reSub true filler2Pat "" c4
  pyStrip (reSub false wsRunPat " " c5)

/-- Transcribes `TranscriptProcessor.identify_speaker`: first matching speaker pattern
(`re.match`, IGNORECASE) wins; the content is the line with the matched
prefix substituted away, stripped.  Unmatched lines are `unknown`. -/
def identify_speaker (text : String) : String × String :=
  match speaker_patterns.find? (fun p => reMatchB true p.pattern text) with
  | some p => (p.speaker_type, pyStrip (reSub true p.pattern "" text))
  | none => ("unknown", pyStrip text)

/-- Transcribes `TranscriptProcessor.is_question` (`re.search`, IGNORECASE). -/
def is_question (text : String) : Bool :=
  question_indicators.any (fun r => reTest true r text)

/-- Python truthiness of an optional string (`None` and `""` are falsy). -/
def truthyS : Option String → Bool
  | none => false
  | some s => s ≠ ""

/-- Transcribes `question`/`answer` exchanges (`{"question": ..., "answer": ...}` dicts). -/
structure QAPair where
  question : String
  answer : String
deriving DecidableEq

/-- Transcribes `models.TranscriptSegment` (the `timestamp` field is never set by the
processor and is omitted). -/
structure TranscriptSegment where
  speaker : String
  content : String
  segment_type : String
deriving DecidableEq

/-- Transcribes `TranscriptProcessor.segment_transcript`: split on `'\n'`, skip blank
lines, identify the speaker, and classify
(`advisor` + question ⇒ `question`, `client` ⇒ `answer`, else `statement`). -/
def segment_transcript (transcript : String) : List TranscriptSegment :=
  (pySplitNl transcript).filterMap (fun line =>
    let line := pyStrip line
    if line = "" then none
    else
      let sc := identify_speaker line
      let segment_type :=
        if sc.1 = "advisor" && is_question sc.2 then "question"
        else if sc.1 = "client" then "answer"
        else "statement"
      some ⟨sc.1, sc.2, segment_type⟩)

/-- Transcribes `TranscriptProcessor.extract_qa_pairs`: single pass holding the current
question; note the Python truthiness test `and current_question`, under which
a held empty-string question never emits a pair. -/
def extract_qa_pairs (segments : List TranscriptSegment) : List QAPair :=
  (segments.foldl (fun st seg =>
    if seg.segment_type = "question" then (some seg.content, st.2)
    else if seg.segment_type = "answer" && truthyS st.1 then
      (none, st.2 ++ [⟨st.1.getD "", seg.content⟩])
    else st) ((none : Option String), ([] : List QAPair))).2

/-- Transcribes `TranscriptProcessor.extract_client_statements`. -/
def extract_client_statements (segments : List TranscriptSegment) : List String :=
  (segments.filter (fun s => s.speaker = "client")).map (fun s => s.content)

/-- Transcribes `TranscriptProcessor.get_conversation_flow`. -/
def get_conversation_flow (segments : List TranscriptSegment) :
    List (String × String × String) :=
  segments.map (fun s => (s.speaker, s.content, s.segment_type))

/-- Transcribes `TranscriptProcessor.extract_key_topics`.  The spaCy model is the
injectable read-only capability `tcap`; `none` models the missing-model
branch (`if not self.nlp: return []`), `some f` abstracts the model's
entity/noun-chunk output on the given text. -/
def extract_key_topics (tcap : Option (String → List String)) (transcript : String) :
    List String :=
  match tcap with
  | none => []
  | some f => f transcript

/-- The dictionary returned by `TranscriptProcessor.process_transcript`. -/
structure ProcessedTranscript where
  cleaned_transcript : String
  segments : List TranscriptSegment
  qa_pairs : List QAPair
  client_statements : List String
  key_topics : List String
  conversation_flow : List (String × String × String)
  total_segments : Nat
  total_qa_pairs : Nat

/-- Transcribes `TranscriptProcessor.process_transcript`: clean, segment, pair, collect. -/
def process_transcript (tcap : Option (String → List String)) (raw_transcript : String) :
    ProcessedTranscript :=
  let cleaned_transcript := clean_transcript raw_transcript
  let segments := segment_transcript cleaned_transcript
  let qa_pairs := extract_qa_pairs segments
  let client_statements := extract_client_statements segments
  let key_topics := extract_key_topics tcap cleaned_transcript
  let conversation_flow := get_conversation_flow segments
  { cleaned_transcript, segments, qa_pairs, client_statements, key_topics,
    conversation_flow, total_segments := segments.length,
    total_qa_pairs := qa_pairs.length }

/-! ### `KYCQuestionMatcher` -/

def apoC : Char := Char.ofNat 39

/-- Transcribes `(what is|what's|can you tell me) your first name` &c.
Each list below transcribes one entry of `kyc_question_patterns`. -/
def firstNameQPats : List RE :=
  [seqs [.group (alts [lit "what is", seqs [lit "what", .char apoC, lit "s"],
      lit "can you tell me"]), lit " your first name"],
   seqs [lit "your first name ", .group (alts [lit "is", lit "please"])],
   seqs [lit "name", .star .dot, lit "first"]]

def lastNameQPats : List RE :=
  [seqs [.group (alts [lit "what is", seqs [lit "what", .char apoC, lit "s"]]),
      lit " your last name"],
   alts [lit "surname", lit "family name"],
   lit "last name"]

def dobQPats : List RE :=
  [alts [lit "date of birth", lit "birth date", lit "when were you born"],
   lit "what is your birthday",
   alts [lit "age", lit "how old"]]

def phoneQPats : List RE :=
  [alts [lit "phone number", lit "contact number", lit "telephone"],
   lit "how can we reach you",
   lit "best number to call"]

def emailQPats : List RE :=
  [alts [lit "email address", lit "e-mail"],
   lit "electronic mail",
   lit "email"]

def maritalQPats : List RE :=
  [alts [lit "marital status", lit "married", lit "single"],
   alts [lit "spouse", lit "partner", lit "wife", lit "husband"],
   lit "relationship status"]

def empStatusQPats : List RE :=
  [alts [lit "employment status", lit "work", lit "job"],
   alts [lit "are you employed", lit "working"],
   alts [lit "occupation", lit "profession"]]

def incomeQPats : List RE :=
  [alts [lit "annual income", lit "yearly income", lit "salary"],
   alts [lit "how much do you make", lit "earn"],
   alts [lit "income", lit "earnings"]]

def netWorthQPats : List RE :=
  [alts [lit "net worth", lit "total assets"],
   alts [lit "financial worth", lit "wealth"],
   seqs [lit "assets", .star .dot, lit "liabilities"]]

def riskQPats : List RE :=
  [alts [lit "risk tolerance", lit "comfort with risk"],
   alts [lit "conservative", lit "aggressive", lit "moderate"],
   lit "risk appetite"]

def objectiveQPats : List RE :=
  [seqs [lit "investment ", .group (alts [lit "goal", lit "objective", lit "purpose"])],
   lit "what are you looking to achieve",
   lit "financial goals"]

def experienceQPats : List RE :=
  [alts [lit "investment experience", lit "investing experience"],
   lit "how long have you been investing",
   lit "previous investments"]

/-- Transcribes `KYCQuestionMatcher.kyc_question_patterns`, in dict insertion order. -/
def kyc_question_patterns : List (String × List RE) :=
  [("personal_info.first_name", firstNameQPats),
   ("personal_info.last_name", lastNameQPats),
   ("personal_info.date_of_birth", dobQPats),
   ("personal_info.phone_number", phoneQPats),
   ("personal_info.email", emailQPats),
   ("personal_info.marital_status", maritalQPats),
   ("employment_info.employment_status", empStatusQPats),
   ("employment_info.annual_income", incomeQPats),
   ("employment_info.net_worth", netWorthQPats),
   ("investment_profile.risk_tolerance", riskQPats),
   ("investment_profile.investment_objective", objectiveQPats),
   ("investment_profile.investment_experience", experienceQPats)]

/-- Transcribes `KYCQuestionMatcher.match_questions_to_kyc_fields`: for every field, the
pairs whose lowercased question matches one of the field's patterns
(first matching pattern stops scanning that pair's patterns). -/
def match_questions_to_kyc_fields (qa_pairs : List QAPair) :
    List (String × List QAPair) :=
  kyc_question_patterns.map (fun e =>
    (e.1, qa_pairs.filter (fun qp =>
      e.2.any (fun p => reTest true p (pyLower qp.question)))))

/-!
## `models.py`

Floats are modelled as `ℚ` (the program only stores parsed decimal values and
multiplies them by powers of ten, which is exact).  `datetime.now()` is
modelled by an explicit `Clock` holding the current year (the only component
the code reads) and an opaque timestamp.
-/

inductive MaritalStatus where
  | single | married | divorced | widowed | separated
deriving DecidableEq

inductive EmploymentStatus where
  | employed | self_employed | unemployed | retired | student
deriving DecidableEq

inductive RiskTolerance where
  | conservative | moderate | aggressive | very_aggressive
deriving DecidableEq

inductive InvestmentObjective where
  | growth | income | preservation | speculation | balanced
deriving DecidableEq

/-- Transcribes `datetime.date` values produced by `date(year, month, day)`. -/
structure PyDate where
  year : Int
  month : Int
  day : Int
deriving DecidableEq

def isLeapYear (y : Int) : Bool := y % 4 = 0 && (y % 100 ≠ 0 || y % 400 = 0)

def daysInMonth (y m : Int) : Int :=
  if m = 2 then (if isLeapYear y then 29 else 28)
  else if m = 4 || m = 6 || m = 9 || m = 11 then 30
  else 31

/-- Validity domain of `datetime.date(y, m, d)` (outside it the constructor
raises `ValueError`). -/
def isValidDate (y m d : Int) : Bool :=
  1 ≤ y && y ≤ 9999 && 1 ≤ m && m ≤ 12 && 1 ≤ d && d ≤ daysInMonth y m

/-- The wall clock as the extraction code observes it: `datetime.now().year`
plus an opaque timestamp used only for `form_completion_date`. -/
structure Clock where
  year : Int
  stamp : Nat
deriving DecidableEq

/-- Transcribes `models.PersonalInfo` (all fields optional, defaulting to `None`). -/
structure PersonalInfo where
  first_name : Option String := none
  last_name : Option String := none
  middle_name : Option String := none
  date_of_birth : Option PyDate := none
  social_security_number : Option String := none
  phone_number : Option String := none
  email : Option String := none
  marital_status : Option MaritalStatus := none
  number_of_dependents : Option Int := none
deriving DecidableEq

/-- Transcribes `models.Address` (note the non-`None` defaults). -/
structure Address where
  street_address : Option String := none
  city : Option String := none
  state : Option String := none
  zip_code : Option String := none
  country : Option String := some "USA"
  is_mailing_address : Bool := true
deriving DecidableEq

/-- Transcribes `models.EmploymentInfo`. -/
structure EmploymentInfo where
  employment_status : Option EmploymentStatus := none
  employer_name : Option String := none
  job_title : Option String := none
  years_employed : Option Int := none
  annual_income : Option ℚ := none
  net_worth : Option ℚ := none
  liquid_net_worth : Option ℚ := none
deriving DecidableEq

/-- Transcribes `models.InvestmentProfile` (note `previous_investment_types` defaults to
an empty list, not `None`). -/
structure InvestmentProfile where
  investment_objective : Option InvestmentObjective := none
  risk_tolerance : Option RiskTolerance := none
  investment_experience_years : Option Int := none
  investment_knowledge_level : Option String := none
  previous_investment_types : Option (List String) := some []
  time_horizon : Option String := none
  liquidity_needs : Option String := none
deriving DecidableEq

/-- Transcribes `models.KYCData`. -/
structure KYCData where
  personal_info : PersonalInfo := {}
  address : Address := {}
  employment_info : EmploymentInfo := {}
  investment_profile : InvestmentProfile := {}
  additional_notes : Option String := none
  form_completion_date : Nat
deriving DecidableEq

/-- Transcribes `KYCData.get_completion_percentage` iterates `self.dict()`: every leaf of
the four section sub-dicts counts one field, completed iff not `None`;
`additional_notes` and `form_completion_date` are counted at top level
(a `datetime` is never `None`, a `bool` and an empty list are not `None`
either).  Returns `completed / total * 100` (0 if no fields). -/
def get_completion_percentage (k : KYCData) : ℚ :=
  let flags : List Bool := [
    k.personal_info.first_name.isSome, k.personal_info.last_name.isSome,
    k.personal_info.middle_name.isSome, k.personal_info.date_of_birth.isSome,
    k.personal_info.social_security_number.isSome, k.personal_info.phone_number.isSome,
    k.personal_info.email.isSome, k.personal_info.marital_status.isSome,
    k.personal_info.number_of_dependents.isSome,
    k.address.street_address.isSome, k.address.city.isSome, k.address.state.isSome,
    k.address.zip_code.isSome, k.address.country.isSome, true,
    k.employment_info.employment_status.isSome, k.employment_info.employer_name.isSome,
    k.employment_info.job_title.isSome, k.employment_info.years_employed.isSome,
    k.employment_info.annual_income.isSome, k.employment_info.net_worth.isSome,
    k.employment_info.liquid_net_worth.isSome,
    k.investment_profile.investment_objective.isSome,
    k.investment_profile.risk_tolerance.isSome,
    k.investment_profile.investment_experience_years.isSome,
    k.investment_profile.investment_knowledge_level.isSome,
    k.investment_profile.previous_investment_types.isSome,
    k.investment_profile.time_horizon.isSome, k.investment_profile.liquidity_needs.isSome,
    k.additional_notes.isSome, true]
  let total : ℚ := flags.length
  let completed : ℚ := (flags.filter id).length
  if 0 < total then completed / total * 100 else 0

/-- Processing notes: the code appends the f-string
`"Form completion: {p:.1f}%"` and, below 50, a fixed advisory string; we model
the two notes structurally, keeping the exact percentage. -/
inductive Note where
  | completion (pct : ℚ)
  | low_completion
deriving DecidableEq

/-- Transcribes `models.ExtractionResult`. -/
structure ExtractionResult where
  kyc_data : KYCData
  confidence_scores : List (String × ℚ) := []
  extracted_segments : List TranscriptSegment := []
  processing_notes : List Note := []
deriving DecidableEq

/-!
## `information_extractor.py`

The optional spaCy model of `InformationExtractor` is the injectable
entity-recognition capability `ecap : Option (String → List (String × String))`
(entity text, entity label); `none` models the missing-model branch.

The numeric sub-regexes inside `_post_process` — `(\d+(?:\.\d+)?)` for
currency, `(\d{1,2})/(\d{1,2})/(\d{4})`, `(\d{1,2})-(\d{1,2})-(\d{4})` and
`(\d{1,2})\s+(?:years|yrs)\s+old` for dates (the latter case-sensitive, as in
the source) — are transcribed as explicit leftmost scanners with the same
greedy/backtracking behaviour, so that we can reason about the shape of their
captures.
-/

def natOfDigits (l : List Char) : Nat :=
  l.foldl (fun n c => n * 10 + (c.toNat - 48)) 0

/-- Exactly `n` leading digits. -/
def takeDigitsN : Nat → List Char → Option (List Char × List Char)
  | 0, l => some ([], l)
  | _ + 1, [] => none
  | n + 1, c :: cs =>
    if pyIsDigit c then (takeDigitsN n cs).map (fun p => (c :: p.1, p.2)) else none

/-- Literal prefix, returning the remainder. -/
def litP (pat : List Char) (l : List Char) : Option (List Char) :=
  if pat.isPrefixOf l then some (l.drop pat.length) else none

/-- Transcribes `\s+` (greedy; the following token never starts with whitespace). -/
def spaces1 : List Char → Option (List Char)
  | [] => none
  | c :: cs => if pyIsSpace c then some (cs.dropWhile pyIsSpace) else none

/-- Transcribes `(\d+(?:\.\d+)?)` : leftmost capture. -/
def numCapture : List Char → Option (List Char)
  | [] => none
  | c :: cs =>
    if pyIsDigit c then
      let ip := (c :: cs).takeWhile pyIsDigit
      let rest := (c :: cs).dropWhile pyIsDigit
      match rest with
      | '.' :: r2 =>
        match r2.takeWhile pyIsDigit with
        | [] => some ip
        | fr => some (ip ++ '.' :: fr)
      | _ => some ip
    else numCapture cs

/-- Python `float()` restricted to the shapes `\d+` and `\d+.\d+` that the
capture can produce; any other shape models a `ValueError`. -/
def pyFloatQ (l : List Char) : Option ℚ :=
  let ip := l.takeWhile pyIsDigit
  let rest := l.dropWhile pyIsDigit
  if ip.isEmpty then none
  else
    match rest with
    | [] => some (natOfDigits ip)
    | '.' :: fr =>
      if !fr.isEmpty && fr.all pyIsDigit then
        some ((natOfDigits ip : ℚ) + (natOfDigits fr : ℚ) / ((10 : ℚ) ^ fr.length))
      else none
    | _ => none

/-- Transcribes `_post_process(..., "parse_currency")`: strip `,` and `$`, multiply by
1000 / 1000000 when the lowercased remainder contains `k` / `m`, else parse
the leading decimal number; `None` when no number is found. -/
def parse_currency (value : String) : Option ℚ :=
  let value_clean := value.data.filter (fun c => !(c = ',' || c = '$'))
  let lowered := value_clean.map Char.toLower
  if lowered.contains 'k' then
    ((numCapture value_clean).bind pyFloatQ).map (· * 1000)
  else if lowered.contains 'm' then
    ((numCapture value_clean).bind pyFloatQ).map (· * 1000000)
  else
    (numCapture value_clean).bind pyFloatQ

/-- Transcribes `(\d{1,2})SEP(\d{1,2})SEP(\d{4})` at the current position (greedy on the
1-2 digit runs, with backtracking). -/
def dmyAt (sep : Char) (l : List Char) : Option (Nat × Nat × Nat) :=
  let rest2 (ds1 ds2 : List Char) (r3 : List Char) : Option (Nat × Nat × Nat) :=
    match r3 with
    | c2 :: r4 =>
      if c2 = sep then
        (takeDigitsN 4 r4).map (fun p => (natOfDigits ds1, natOfDigits ds2, natOfDigits p.1))
      else none
    | [] => none
  let rest1 (ds1 : List Char) (r1 : List Char) : Option (Nat × Nat × Nat) :=
    match r1 with
    | c :: r2 =>
      if c = sep then
        match takeDigitsN 2 r2 with
        | some (ds2, r3) =>
          match rest2 ds1 ds2 r3 with
          | some v => some v
          | none => (takeDigitsN 1 r2).bind (fun p => rest2 ds1 p.1 p.2)
        | none => (takeDigitsN 1 r2).bind (fun p => rest2 ds1 p.1 p.2)
      else none
    | [] => none
  match takeDigitsN 2 l with
  | some (ds1, r1) =>
    (match rest1 ds1 r1 with
     | some v => some v
     | none => (takeDigitsN 1 l).bind (fun p => rest1 p.1 p.2))
  | none => (takeDigitsN 1 l).bind (fun p => rest1 p.1 p.2)

/-- Leftmost search for `dmyAt`. -/
def dmyScan (sep : Char) : List Char → Option (Nat × Nat × Nat)
  | [] => none
  | c :: cs =>
    match dmyAt sep (c :: cs) with
    | some v => some v
    | none => dmyScan sep cs

/-- Transcribes `\s+(?:years|yrs)\s+old` (case-sensitive, as in `_post_process`). -/
def ageTail (r : List Char) : Bool :=
  match (spaces1 r).bind (fun r1 =>
    (match litP "years".data r1 with
     | some r2 => some r2
     | none => litP "yrs".data r1).bind (fun r2 =>
      (spaces1 r2).bind (litP "old".data))) with
  | some _ => true
  | none => false

/-- Transcribes `(\d{1,2})\s+(?:years|yrs)\s+old` at the current position. -/
def ageAt (l : List Char) : Option (List Char) :=
  match takeDigitsN 2 l with
  | some (ds, r) =>
    if ageTail r then some ds
    else (takeDigitsN 1 l).bind (fun p => if ageTail p.2 then some p.1 else none)
  | none => (takeDigitsN 1 l).bind (fun p => if ageTail p.2 then some p.1 else none)

/-- Leftmost search for `ageAt`. -/
def ageScan : List Char → Option (List Char)
  | [] => none
  | c :: cs =>
    match ageAt (c :: cs) with
    | some v => some v
    | none => ageScan cs

/-- Transcribes `_post_process(..., "parse_date")`: try `M/D/YYYY`, then `M-D-YYYY`
(an invalid calendar date falls through to the next attempt, modelling the
caught `ValueError`), then the age phrase, whose result is
`date(now.year - age, 1, 1)`.  The age branch calls `date()` outside any
`try`, so this total function agrees with Python exactly when
`now.year - age` stays in the valid year range (see `parse_dateE`). -/
def parse_date (nowYear : Int) (value : String) : Option PyDate :=
  let tryAge : Option PyDate :=
    (ageScan value.data).map (fun ds => ⟨nowYear - natOfDigits ds, 1, 1⟩)
  let tryDash : Option PyDate :=
    match dmyScan '-' value.data with
    | some (m, d, y) =>
      if isValidDate y m d then some ⟨y, m, d⟩ else tryAge
    | none => tryAge
  match dmyScan '/' value.data with
  | some (m, d, y) =>
    if isValidDate y m d then some ⟨y, m, d⟩ else tryDash
  | none => tryDash

/-- Transcribes `_post_process(..., "clean_name")`. -/
def clean_name (value : String) : String := pyTitle (pyStrip value)

/-- Transcribes `_post_process(..., "format_phone")`. -/
def format_phone (value : String) : String :=
  let digits := value.data.filter pyIsDigit
  if digits.length = 10 then
    "(" ++ ⟨digits.take 3⟩ ++ ") " ++ ⟨(digits.drop 3).take 3⟩ ++ "-" ++ ⟨digits.drop 6⟩
  else value

/-- Transcribes `_post_process(..., "clean_email")`. -/
def clean_email (value : String) : String := pyStrip (pyLower value)

/-- Python `int()` on a regex capture; total on all-digit captures, `None`
models a caught `ValueError` elsewhere. -/
def pyIntOpt (s : String) : Option Int :=
  if !s.data.isEmpty && s.data.all pyIsDigit then some (natOfDigits s.data) else none

/-! ### `_setup_extraction_patterns` pattern tables -/

def spaceItems : List ClsItem :=
  [.ch ' ', .ch '\t', .ch '\n', .ch '\r', .ch '\x0b', .ch '\x0c']

/-- Transcribes `[-.\s]` (phone separators). -/
def clsPhoneSep : RE := .cls true ([.ch '-', .ch '.'] ++ spaceItems)

/-- Transcribes `[A-Z][a-z]+` (a capitalized word; both classes fold under IGNORECASE). -/
def capWord : RE := .cat clsUpper (qplus clsLower)

/-- Transcribes `{1,2}` greedy. -/
def oneTwo (r : RE) : RE := .cat r (qopt r)

/-- Transcribes `(?:my|i'm|i am|name is|call me)\s+([A-Z][a-z]+)` -/
def fnP1 : RE :=
  seqs [alts [lit "my", seqs [lit "i", .char apoC, lit "m"], lit "i am",
    lit "name is", lit "call me"], qplus clsS, .group capWord]

/-- Transcribes `first name.{0,10}([A-Z][a-z]+)` -/
def fnP2 : RE := seqs [lit "first name", upTo 10 .dot, .group capWord]

def first_name_patterns : List RE := [fnP1, fnP2]

/-- Transcribes `last name.{0,10}([A-Z][a-z]+)` -/
def lnP1 : RE := seqs [lit "last name", upTo 10 .dot, .group capWord]

/-- Transcribes `([A-Z][a-z]+)(?:\s+is my last name)` -/
def lnP2 : RE := seqs [.group capWord, qplus clsS, lit "is my last name"]

def last_name_patterns : List RE := [lnP1, lnP2]

/-- Transcribes `(\d{3}[-.\s]?\d{3}[-.\s]?\d{4})` -/
def phP1 : RE :=
  .group (seqs [exactly 3 clsD, qopt clsPhoneSep, exactly 3 clsD,
    qopt clsPhoneSep, exactly 4 clsD])

/-- Transcribes `(\(\d{3}\)\s?\d{3}[-.\s]?\d{4})` -/
def phP2 : RE :=
  .group (seqs [.char '(', exactly 3 clsD, .char ')', qopt clsS,
    exactly 3 clsD, qopt clsPhoneSep, exactly 4 clsD])

def phone_patterns : List RE := [phP1, phP2]

/-- Transcribes `([a-zA-Z0-9._%+-]+@[a-zA-Z0-9.-]+\.[a-zA-Z]{2,})` -/
def emailP : RE :=
  .group (seqs [
    qplus (.cls true [.range 'a' 'z', .range 'A' 'Z', .range '0' '9',
      .ch '.', .ch '_', .ch '%', .ch '+', .ch '-']),
    .char '@',
    qplus (.cls true [.range 'a' 'z', .range 'A' 'Z', .range '0' '9', .ch '.', .ch '-']),
    .char '.',
    atLeast 2 (.cls true [.range 'a' 'z', .range 'A' 'Z'])])

def email_patterns : List RE := [emailP]

/-- Transcribes `(\d{1,2}/\d{1,2}/\d{4})` -/
def dobP1 : RE :=
  .group (seqs [oneTwo clsD, .char '/', oneTwo clsD, .char '/', exactly 4 clsD])

/-- Transcribes `(\d{1,2}-\d{1,2}-\d{4})` -/
def dobP2 : RE :=
  .group (seqs [oneTwo clsD, .char '-', oneTwo clsD, .char '-', exactly 4 clsD])

/-- Transcribes `(born.{0,20}\d{4})` -/
def dobP3 : RE := .group (seqs [lit "born", upTo 20 .dot, exactly 4 clsD])

/-- Transcribes `(\d{1,2}\s+(?:years|yrs)\s+old)` -/
def dobP4 : RE :=
  .group (seqs [oneTwo clsD, qplus clsS, alts [lit "years", lit "yrs"],
    qplus clsS, lit "old"])

def date_of_birth_patterns : List RE := [dobP1, dobP2, dobP3, dobP4]

/-- Transcribes `[0-9,]+` -/
def numComma : RE := qplus (.cls true [.range '0' '9', .ch ','])

/-- Transcribes `(?:make|earn|income).{0,20}\$?([0-9,]+)` -/
def aiP1 : RE :=
  seqs [alts [lit "make", lit "earn", lit "income"], upTo 20 .dot,
    qopt (.char '$'), .group numComma]

/-- Transcribes `\$([0-9,]+).{0,20}(?:year|annual)` -/
def aiP2 : RE :=
  seqs [.char '$', .group numComma, upTo 20 .dot, alts [lit "year", lit "annual"]]

/-- Transcribes `([0-9,]+).{0,10}(?:thousand|k|million|m).{0,10}(?:year|annual)` -/
def aiP3 : RE :=
  seqs [.group numComma, upTo 10 .dot,
    alts [lit "thousand", lit "k", lit "million", lit "m"], upTo 10 .dot,
    alts [lit "year", lit "annual"]]

def annual_income_patterns : List RE := [aiP1, aiP2, aiP3]

/-- Transcribes `net worth.{0,20}\$?([0-9,]+)`, `worth.{0,20}\$?([0-9,]+)`,
`assets.{0,20}\$?([0-9,]+)` -/
def net_worth_patterns : List RE :=
  [seqs [lit "net worth", upTo 20 .dot, qopt (.char '$'), .group numComma],
   seqs [lit "worth", upTo 20 .dot, qopt (.char '$'), .group numComma],
   seqs [lit "assets", upTo 20 .dot, qopt (.char '$'), .group numComma]]

/-- Transcribes `_extract_with_pattern` for `"regex"` patterns: first matching regex wins,
returning `group(1)` (or the whole match when the pattern has no group). -/
def extract_first_match (pats : List RE) (text : String) : Option String :=
  pats.findSome? (fun p => reFind true p text)

/-! ### The per-field extraction tiers of `extract_personal_info` -/

/-- Direct-text tier for `first_name` (regex + `clean_name`). -/
def first_name_direct (text : String) : Option String :=
  (extract_first_match first_name_patterns text).map clean_name

def last_name_direct (text : String) : Option String :=
  (extract_first_match last_name_patterns text).map clean_name

def phone_number_direct (text : String) : Option String :=
  (extract_first_match phone_patterns text).map format_phone

def email_direct (text : String) : Option String :=
  (extract_first_match email_patterns text).map clean_email

def date_of_birth_direct (nowYear : Int) (text : String) : Option PyDate :=
  (extract_first_match date_of_birth_patterns text).bind (parse_date nowYear)

/-- Transcribes `_extract_field_from_answer("marital_status", answer)`: ordered keyword
lookup over the lowercased answer (dict insertion order). -/
def marital_from_answer (answer : String) : Option MaritalStatus :=
  let al := pyLower answer
  if pyContains al "single" then some .single
  else if pyContains al "married" then some .married
  else if pyContains al "divorced" then some .divorced
  else if pyContains al "widowed" then some .widowed
  else if pyContains al "separated" then some .separated
  else none

/-- Transcribes `setattr(...)` guarded by `if value:` for string-valued fields. -/
def overS (old new : Option String) : Option String :=
  if truthyS new then new else old

/-- Transcribes `if value:` for `date` values (a `date` object is always truthy). -/
def overD (old new : Option PyDate) : Option PyDate :=
  match new with
  | some d => some d
  | none => old

/-- Transcribes `if value:` for enum values (always truthy). -/
def overM (old new : Option MaritalStatus) : Option MaritalStatus :=
  match new with
  | some m => some m
  | none => old

/-- Transcribes `if value:` for floats (`0.0` is falsy). -/
def truthyQ : Option ℚ → Bool
  | none => false
  | some q => q ≠ 0

def overQ (old new : Option ℚ) : Option ℚ :=
  if truthyQ new then new else old

/-- Tier 1 of `extract_personal_info`: scan named entities; the first
`PERSON` entity (while `first_name` is still unset) seeds first/last name
from its whitespace-split parts. -/
def nerPersonPass (p0 : PersonalInfo) (ents : List (String × String)) : PersonalInfo :=
  ents.foldl (fun p ent =>
    if ent.2 = "PERSON" && !(truthyS p.first_name) then
      let parts := pySplitWs ent.1
      let p1 := if 1 ≤ parts.length then { p with first_name := parts.head? } else p
      if 2 ≤ parts.length then { p1 with last_name := parts.getLast? } else p1
    else p) p0

/-- Tier 2 of `extract_personal_info`: the `extraction_patterns` loop in dict
insertion order (`first_name`, `last_name`, `phone_number`, `email`,
`date_of_birth`; the financial patterns are skipped by the `hasattr` guard). -/
def regexPersonPass (nowYear : Int) (text : String) (p : PersonalInfo) : PersonalInfo :=
  let p := { p with first_name := overS p.first_name (first_name_direct text) }
  let p := { p with last_name := overS p.last_name (last_name_direct text) }
  let p := { p with phone_number := overS p.phone_number (phone_number_direct text) }
  let p := { p with email := overS p.email (email_direct text) }
  { p with date_of_birth := overD p.date_of_birth (date_of_birth_direct nowYear text) }

/-- First matched answer for a field path, if any
(`field_matches[field_path][0]["answer"]`). -/
def firstMatchedAnswer (fm : List (String × List QAPair)) (path : String) : Option String :=
  match fm.find? (fun e => e.1 = path) with
  | some (_, qp :: _) => some qp.answer
  | _ => none

/-- Tier 3 of `extract_personal_info`: the `personal_fields` loop, extracting
each field's value from the first matched answer with the same field patterns
(`_extract_field_from_answer`), overwriting when truthy. -/
def qaPersonPass (nowYear : Int) (fm : List (String × List QAPair)) (p : PersonalInfo) :
    PersonalInfo :=
  let p := match firstMatchedAnswer fm "personal_info.first_name" with
    | some a => { p with first_name := overS p.first_name (first_name_direct a) }
    | none => p
  let p := match firstMatchedAnswer fm "personal_info.last_name" with
    | some a => { p with last_name := overS p.last_name (last_name_direct a) }
    | none => p
  let p := match firstMatchedAnswer fm "personal_info.email" with
    | some a => { p with email := overS p.email (email_direct a) }
    | none => p
  let p := match firstMatchedAnswer fm "personal_info.phone_number" with
    | some a => { p with phone_number := overS p.phone_number (phone_number_direct a) }
    | none => p
  let p := match firstMatchedAnswer fm "personal_info.date_of_birth" with
    | some a => { p with date_of_birth := overD p.date_of_birth (date_of_birth_direct nowYear a) }
    | none => p
  match firstMatchedAnswer fm "personal_info.marital_status" with
  | some a => { p with marital_status := overM p.marital_status (marital_from_answer a) }
  | none => p

/-- Transcribes `InformationExtractor.extract_personal_info`: NER tier, then direct-regex
tier, then matched-answer tier (later truthy values overwrite earlier ones). -/
def extract_personal_info (ecap : Option (String → List (String × String)))
    (text : String) (qa_pairs : List QAPair) (nowYear : Int) : PersonalInfo :=
  let p0 : PersonalInfo := {}
  let p1 := match ecap with
    | none => p0
    | some f => nerPersonPass p0 (f text)
  let p2 := regexPersonPass nowYear text p1
  qaPersonPass nowYear (match_questions_to_kyc_fields qa_pairs) p2

/-! ### Address, employment, investment sections -/

/-- Transcribes `(?:st|street|ave|avenue|rd|road|blvd|boulevard|dr|drive|ln|lane|ct|court)` -/
def streetSuffix : RE :=
  alts [lit "st", lit "street", lit "ave", lit "avenue", lit "rd", lit "road",
    lit "blvd", lit "boulevard", lit "dr", lit "drive", lit "ln", lit "lane",
    lit "ct", lit "court"]

/-- Transcribes `[A-Za-z\s]+` -/
def clsAlphaSp : RE := qplus (.cls true ([.range 'A' 'Z', .range 'a' 'z'] ++ spaceItems))

/-- Transcribes `(\d+\s+[A-Za-z\s]+(?:st|street|...))` -/
def streetCore : RE :=
  .group (seqs [qplus clsD, qplus clsS, clsAlphaSp, streetSuffix])

def street_address_patterns : List RE :=
  [seqs [alts [lit "live at", lit "address is", lit "street"], upTo 20 .dot, streetCore],
   streetCore]

/-- Transcribes `(?:city|in)\s+([A-Z][a-z]+(?:\s+[A-Z][a-z]+)*)` -/
def city_patterns : List RE :=
  [seqs [alts [lit "city", lit "in"], qplus clsS,
    .group (seqs [capWord, .star (seqs [qplus clsS, capWord])])]]

/-- Transcribes `([A-Z]{2})\s+\d{5}` and `state\s+(?:of\s+)?([A-Z][a-z]+)` -/
def state_patterns : List RE :=
  [seqs [.group (exactly 2 clsUpper), qplus clsS, exactly 5 clsD],
   seqs [lit "state", qplus clsS, qopt (seqs [lit "of", qplus clsS]), .group capWord]]

/-- Transcribes `(\d{5}(?:-\d{4})?)` and `zip.{0,10}(\d{5})` -/
def zip_code_patterns : List RE :=
  [.group (.cat (exactly 5 clsD) (qopt (.cat (.char '-') (exactly 4 clsD)))),
   seqs [lit "zip", upTo 10 .dot, .group (exactly 5 clsD)]]

/-- Transcribes `InformationExtractor.extract_address`: per field, first matching pattern
sets `group(1).strip()`.  The `qa_pairs` argument is accepted but never read,
as in the source. -/
def extract_address (text : String) (qa_pairs : List QAPair) : Address :=
  { street_address :=
      (List.findSome? (fun p => reFind true p text) street_address_patterns).map pyStrip,
    city := (List.findSome? (fun p => reFind true p text) city_patterns).map pyStrip,
    state := (List.findSome? (fun p => reFind true p text) state_patterns).map pyStrip,
    zip_code := (List.findSome? (fun p => reFind true p text) zip_code_patterns).map pyStrip }

/-- Transcribes `work at\s+([A-Z][A-Za-z\s&]+)`, `employed by\s+([A-Z][A-Za-z\s&]+)`,
`company.{0,20}([A-Z][A-Za-z\s&]+)` -/
def employer_patterns : List RE :=
  [seqs [lit "work at", qplus clsS,
    .group (.cat clsUpper (qplus (.cls true ([.range 'A' 'Z', .range 'a' 'z', .ch '&'] ++ spaceItems))))],
   seqs [lit "employed by", qplus clsS,
    .group (.cat clsUpper (qplus (.cls true ([.range 'A' 'Z', .range 'a' 'z', .ch '&'] ++ spaceItems))))],
   seqs [lit "company", upTo 20 .dot,
    .group (.cat clsUpper (qplus (.cls true ([.range 'A' 'Z', .range 'a' 'z', .ch '&'] ++ spaceItems))))]]

/-- Direct-text tier for `annual_income` (regex + `parse_currency`). -/
def annual_income_direct (text : String) : Option ℚ :=
  (extract_first_match annual_income_patterns text).bind parse_currency

def net_worth_direct (text : String) : Option ℚ :=
  (extract_first_match net_worth_patterns text).bind parse_currency

/-- Transcribes `InformationExtractor.extract_employment_info`: ordered keyword table for
the status (dict insertion order, first hit wins), employer regexes, then the
financial patterns guarded by `if value:` (so an extracted `0.0` is dropped).
The `qa_pairs` argument is accepted but never read, as in the source. -/
def extract_employment_info (text : String) (qa_pairs : List QAPair) : EmploymentInfo :=
  let tl := pyLower text
  let status : Option EmploymentStatus :=
    if [ "employed", "work at", "job", "working" ].any (fun kw => pyContains tl kw) then
      some .employed
    else if [ "self-employed", "own business", "freelance", "contractor" ].any
        (fun kw => pyContains tl kw) then some .self_employed
    else if [ "retired", "retirement" ].any (fun kw => pyContains tl kw) then some .retired
    else if [ "unemployed", "not working", "between jobs" ].any
        (fun kw => pyContains tl kw) then some .unemployed
    else if [ "student", "studying", "school" ].any (fun kw => pyContains tl kw) then
      some .student
    else none
  { employment_status := status,
    employer_name :=
      (List.findSome? (fun p => reFind true p text) employer_patterns).map pyStrip,
    annual_income := overQ none (annual_income_direct text),
    net_worth := overQ none (net_worth_direct text) }

/-- Transcribes `(\d+)\s+years?.{0,20}(?:experience|investing)` &c. -/
def experience_patterns : List RE :=
  [seqs [.group (qplus clsD), qplus clsS, lit "year", qopt (.char 's'),
    upTo 20 .dot, alts [lit "experience", lit "investing"]],
   seqs [lit "investing", upTo 20 .dot, .group (qplus clsD), qplus clsS,
    lit "year", qopt (.char 's')],
   seqs [lit "been investing", upTo 20 .dot, .group (qplus clsD)]]

/-- Transcribes `InformationExtractor.extract_investment_profile`: ordered keyword tables
for risk tolerance and objective (dict insertion order, first hit wins), then
the experience patterns, where an uncaught-able `int()` failure is modelled by
`pyIntOpt` (the source catches `ValueError` and continues to the next
pattern). -/
def extract_investment_profile (text : String) (qa_pairs : List QAPair) :
    InvestmentProfile :=
  let tl := pyLower text
  let risk : Option RiskTolerance :=
    if [ "conservative", "safe", "low risk", "cautious" ].any
        (fun kw => pyContains tl kw) then some .conservative
    else if [ "moderate", "balanced", "medium risk" ].any
        (fun kw => pyContains tl kw) then some .moderate
    else if [ "aggressive", "high risk", "growth" ].any
        (fun kw => pyContains tl kw) then some .aggressive
    else if [ "very aggressive", "speculation", "maximum risk" ].any
        (fun kw => pyContains tl kw) then some .very_aggressive
    else none
  let objective : Option InvestmentObjective :=
    if [ "growth", "appreciate", "increase" ].any (fun kw => pyContains tl kw) then
      some .growth
    else if [ "income", "dividends", "yield" ].any (fun kw => pyContains tl kw) then
      some .income
    else if [ "preserve", "protect", "capital preservation" ].any
        (fun kw => pyContains tl kw) then some .preservation
    else if [ "speculation", "speculate", "high returns" ].any
        (fun kw => pyContains tl kw) then some .speculation
    else if [ "balanced", "combination", "mix" ].any (fun kw => pyContains tl kw) then
      some .balanced
    else none
  { risk_tolerance := risk,
    investment_objective := objective,
    investment_experience_years :=
      List.findSome? (fun p => (reFind true p text).bind pyIntOpt) experience_patterns }

/-- Transcribes `InformationExtractor._calculate_confidence_scores`: one entry per field
path of the static table, `0.8` when at least one QA pair matched, `0.3`
otherwise.  The `kyc_data` argument is accepted but never read, as in the
source. -/
def calculate_confidence_scores (kyc_data : KYCData) (qa_pairs : List QAPair) :
    List (String × ℚ) :=
  (match_questions_to_kyc_fields qa_pairs).map (fun e =>
    (e.1, if e.2 ≠ [] then (4 / 5 : ℚ) else (3 / 10 : ℚ)))

/-- Transcribes `" ".join(client_statements)` — the aggregate client text fed to every
section extractor. -/
def client_text (pt : ProcessedTranscript) : String :=
  String.intercalate " " pt.client_statements

/-- The `KYCData(...)` record assembled inside `extract_kyc_data`
(`form_completion_date` is the construction-time `datetime.now()`). -/
def assemble_kyc_data (pt : ProcessedTranscript)
    (ecap : Option (String → List (String × String))) (clock : Clock) : KYCData :=
  { personal_info := extract_personal_info ecap (client_text pt) pt.qa_pairs clock.year,
    address := extract_address (client_text pt) pt.qa_pairs,
    employment_info := extract_employment_info (client_text pt) pt.qa_pairs,
    investment_profile := extract_investment_profile (client_text pt) pt.qa_pairs,
    additional_notes := none,
    form_completion_date := clock.stamp }

/-- Transcribes `InformationExtractor.extract_kyc_data`: aggregate all client statements,
extract the four sections, assemble the record, score confidences and append
the processing notes (always a completion note; an advisory below 50%). -/
def extract_kyc_data (pt : ProcessedTranscript)
    (ecap : Option (String → List (String × String))) (clock : Clock) :
    ExtractionResult :=
  let kyc_data := assemble_kyc_data pt ecap clock
  { kyc_data,
    confidence_scores := calculate_confidence_scores kyc_data pt.qa_pairs,
    extracted_segments := pt.segments,
    processing_notes :=
      [Note.completion (get_completion_percentage kyc_data)] ++
        (if get_completion_percentage kyc_data < 50 then [Note.low_completion] else []) }

/-- The full pipeline: `TranscriptProcessor.process_transcript` followed by
`InformationExtractor.extract_kyc_data` (the composition exercised by
`KYCProcessor`).  `tcap`/`ecap` are the two frozen optional NLP capabilities,
`clock` the wall clock. -/
def run_pipeline (raw : String) (tcap : Option (String → List String))
    (ecap : Option (String → List (String × String))) (clock : Clock) :
    ExtractionResult :=
  extract_kyc_data (process_transcript tcap raw) ecap clock


/-!
## Exception-level semantics

`Except Unit` variants of the only operations on the extraction path that can
raise in Python — `float()` on the numeric capture, `int()` on the age
capture, and `date(...)` — threaded through the functions that call them.
A `.error` result models an uncaught exception escaping `extract_kyc_data`;
the theorem for the no-raise claim shows the pipeline always returns `.ok`.
(`int()` in `extract_investment_profile` is wrapped in `try/except ValueError:
continue` in the source, which the pure `pyIntOpt` already models; the purely
regex/string-based `extract_address`, `extract_investment_profile` and
`process_transcript` have no raising operations.)
-/

/-- Transcribes `float()` on a capture of `(\d+(?:\.\d+)?)`; raises on any other shape. -/
def pyFloatE (l : List Char) : Except Unit ℚ :=
  match pyFloatQ l with
  | some q => .ok q
  | none => .error ()

/-- Transcribes `int()` on a digit capture; raises otherwise. -/
def pyIntE (l : List Char) : Except Unit Int :=
  if !l.isEmpty && l.all pyIsDigit then .ok (natOfDigits l) else .error ()

/-- Transcribes `datetime.date(y, m, d)`; raises `ValueError` outside the valid range. -/
def pyDateE (y m d : Int) : Except Unit PyDate :=
  if isValidDate y m d then .ok ⟨y, m, d⟩ else .error ()

/-- Exception-level `parse_currency` (the three `float()` calls are not
guarded in the source). -/
def parse_currencyE (value : String) : Except Unit (Option ℚ) :=
  let value_clean := value.data.filter (fun c => !(c = ',' || c = '$'))
  let lowered := value_clean.map Char.toLower
  if lowered.contains 'k' then
    match numCapture value_clean with
    | some cap => (pyFloatE cap).map (fun q => some (q * 1000))
    | none => .ok none
  else if lowered.contains 'm' then
    match numCapture value_clean with
    | some cap => (pyFloatE cap).map (fun q => some (q * 1000000))
    | none => .ok none
  else
    match numCapture value_clean with
    | some cap => (pyFloatE cap).map some
    | none => .ok none

/-- Exception-level `parse_date`: the numeric-date `date()` calls are inside
`try/except ValueError` (failure falls through), but the age branch calls
`int()` and `date(birth_year, 1, 1)` unguarded. -/
def parse_dateE (nowYear : Int) (value : String) : Except Unit (Option PyDate) :=
  let tryAge : Except Unit (Option PyDate) :=
    match ageScan value.data with
    | some ds =>
      (pyIntE ds).bind (fun age => (pyDateE (nowYear - age) 1 1).map some)
    | none => .ok none
  let tryDash : Except Unit (Option PyDate) :=
    match dmyScan '-' value.data with
    | some (m, d, y) =>
      if isValidDate y m d then .ok (some ⟨y, m, d⟩) else tryAge
    | none => tryAge
  match dmyScan '/' value.data with
  | some (m, d, y) =>
    if isValidDate y m d then .ok (some ⟨y, m, d⟩) else tryDash
  | none => tryDash

/-- Exception-level direct-text date-of-birth tier. -/
def date_of_birth_directE (nowYear : Int) (text : String) : Except Unit (Option PyDate) :=
  match extract_first_match date_of_birth_patterns text with
  | some v => parse_dateE nowYear v
  | none => .ok none

/-- Exception-level direct-text currency tiers. -/
def annual_income_directE (text : String) : Except Unit (Option ℚ) :=
  match extract_first_match annual_income_patterns text with
  | some v => parse_currencyE v
  | none => .ok none

def net_worth_directE (text : String) : Except Unit (Option ℚ) :=
  match extract_first_match net_worth_patterns text with
  | some v => parse_currencyE v
  | none => .ok none

/-- Exception-level tier 2 of `extract_personal_info` (only the
`date_of_birth` entry can raise; it runs after the four string fields). -/
def regexPersonPassE (nowYear : Int) (text : String) (p : PersonalInfo) :
    Except Unit PersonalInfo :=
  let p := { p with first_name := overS p.first_name (first_name_direct text) }
  let p := { p with last_name := overS p.last_name (last_name_direct text) }
  let p := { p with phone_number := overS p.phone_number (phone_number_direct text) }
  let p := { p with email := overS p.email (email_direct text) }
  (date_of_birth_directE nowYear text).map (fun d =>
    { p with date_of_birth := overD p.date_of_birth d })

/-- Exception-level tier 3 of `extract_personal_info` (`date_of_birth` is the
fifth of the six `personal_fields`; `marital_status` follows it). -/
def qaPersonPassE (nowYear : Int) (fm : List (String × List QAPair)) (p : PersonalInfo) :
    Except Unit PersonalInfo :=
  let p := match firstMatchedAnswer fm "personal_info.first_name" with
    | some a => { p with first_name := overS p.first_name (first_name_direct a) }
    | none => p
  let p := match firstMatchedAnswer fm "personal_info.last_name" with
    | some a => { p with last_name := overS p.last_name (last_name_direct a) }
    | none => p
  let p := match firstMatchedAnswer fm "personal_info.email" with
    | some a => { p with email := overS p.email (email_direct a) }
    | none => p
  let p := match firstMatchedAnswer fm "personal_info.phone_number" with
    | some a => { p with phone_number := overS p.phone_number (phone_number_direct a) }
    | none => p
  let dstep : Except Unit PersonalInfo :=
    match firstMatchedAnswer fm "personal_info.date_of_birth" with
    | some a =>
      (date_of_birth_directE nowYear a).map (fun d =>
        { p with date_of_birth := overD p.date_of_birth d })
    | none => .ok p
  dstep.map (fun p =>
    match firstMatchedAnswer fm "personal_info.marital_status" with
    | some a => { p with marital_status := overM p.marital_status (marital_from_answer a) }
    | none => p)

/-- Exception-level `extract_personal_info`. -/
def extract_personal_infoE (ecap : Option (String → List (String × String)))
    (text : String) (qa_pairs : List QAPair) (nowYear : Int) :
    Except Unit PersonalInfo :=
  let p0 : PersonalInfo := {}
  let p1 := match ecap with
    | none => p0
    | some f => nerPersonPass p0 (f text)
  (regexPersonPassE nowYear text p1).bind (fun p2 =>
    qaPersonPassE nowYear (match_questions_to_kyc_fields qa_pairs) p2)

/-- Exception-level `extract_employment_info` (`annual_income` runs before
`net_worth`, as in the field loop). -/
def extract_employment_infoE (text : String) (qa_pairs : List QAPair) :
    Except Unit EmploymentInfo :=
  (annual_income_directE text).bind (fun ai =>
    (net_worth_directE text).map (fun nw =>
      { extract_employment_info text qa_pairs with
          annual_income := overQ none ai, net_worth := overQ none nw }))

/-- Exception-level `extract_kyc_data` (sections are extracted in source
order; the first raised exception escapes). -/
def extract_kyc_dataE (pt : ProcessedTranscript)
    (ecap : Option (String → List (String × String))) (clock : Clock) :
    Except Unit ExtractionResult :=
  (extract_personal_infoE ecap (client_text pt) pt.qa_pairs clock.year).bind (fun personal =>
    (extract_employment_infoE (client_text pt) pt.qa_pairs).map (fun employment =>
      let kyc_data : KYCData :=
        { personal_info := personal,
          address := extract_address (client_text pt) pt.qa_pairs,
          employment_info := employment,
          investment_profile := extract_investment_profile (client_text pt) pt.qa_pairs,
          additional_notes := none,
          form_completion_date := clock.stamp }
      { kyc_data,
        confidence_scores := calculate_confidence_scores kyc_data pt.qa_pairs,
        extracted_segments := pt.segments,
        processing_notes :=
          [Note.completion (get_completion_percentage kyc_data)] ++
            (if get_completion_percentage kyc_data < 50 then [Note.low_completion] else []) }))

/-- Exception-level full pipeline. -/
def run_pipelineE (raw : String) (tcap : Option (String → List String))
    (ecap : Option (String → List (String × String))) (clock : Clock) :
    Except Unit ExtractionResult :=
  extract_kyc_dataE (process_transcript tcap raw) ecap clock

/-!
## Specification-side definitions

Definitions transcribed from the *spec's words* (not the source), used for
refinement-style comparisons.
-/

/-- Modelled from the spec, §4.3 (amended): the two-state DialogueLinker.
A `question` utterance stores its content (overwriting any held question);
an `answer` while a non-empty question is held emits one pair and clears it;
an `answer` while the held question is the empty string emits nothing and
leaves it held; an `answer` with no held question emits nothing; every other
utterance leaves the state unchanged. -/
def qa_linker_spec_step (st : Option String × List QAPair) (seg : TranscriptSegment) :
    Option String × List QAPair :=
  if seg.segment_type = "question" then (some seg.content, st.2)
  else if seg.segment_type = "answer" then
    match st.1 with
    | some q => if q ≠ "" then (none, st.2 ++ [⟨q, seg.content⟩]) else st
    | none => st
  else st

def extract_qa_pairs_spec (segments : List TranscriptSegment) : List QAPair :=
  (segments.foldl qa_linker_spec_step (none, [])).2

/-- The record produced by the entity-recognition tier alone (tier 1 of
`extract_personal_info`): the seed every later tier overwrites. -/
def ner_tier (ecap : Option (String → List (String × String)))
    (text : String) : PersonalInfo :=
  match ecap with
  | none => {}
  | some f => nerPersonPass {} (f text)

/-- The value produced by the matched-answer tier alone (tier 3) for
`first_name`. -/
def first_name_answer_tier (qa_pairs : List QAPair) : Option String :=
  match firstMatchedAnswer (match_questions_to_kyc_fields qa_pairs)
      "personal_info.first_name" with
  | some a => first_name_direct a
  | none => none

/-- Matched-answer tier value for `last_name`. -/
def last_name_answer_tier (qa_pairs : List QAPair) : Option String :=
  match firstMatchedAnswer (match_questions_to_kyc_fields qa_pairs)
      "personal_info.last_name" with
  | some a => last_name_direct a
  | none => none

/-- Matched-answer tier value for `email`. -/
def email_answer_tier (qa_pairs : List QAPair) : Option String :=
  match firstMatchedAnswer (match_questions_to_kyc_fields qa_pairs)
      "personal_info.email" with
  | some a => email_direct a
  | none => none

/-- Matched-answer tier value for `phone_number`. -/
def phone_number_answer_tier (qa_pairs : List QAPair) : Option String :=
  match firstMatchedAnswer (match_questions_to_kyc_fields qa_pairs)
      "personal_info.phone_number" with
  | some a => phone_number_direct a
  | none => none

/-- Matched-answer tier value for `date_of_birth`. -/
def date_of_birth_answer_tier (nowYear : Int) (qa_pairs : List QAPair) :
    Option PyDate :=
  match firstMatchedAnswer (match_questions_to_kyc_fields qa_pairs)
      "personal_info.date_of_birth" with
  | some a => date_of_birth_direct nowYear a
  | none => none

/-- Matched-answer tier value for `marital_status` (the only tier that targets
this field). -/
def marital_status_answer_tier (qa_pairs : List QAPair) : Option MaritalStatus :=
  match firstMatchedAnswer (match_questions_to_kyc_fields qa_pairs)
      "personal_info.marital_status" with
  | some a => marital_from_answer a
  | none => none

/-- Erase the clock-copied `form_completion_date` from a result (for the
determinism-modulo-clock statement). -/
def scrub_completion_date (r : ExtractionResult) : ExtractionResult :=
  { r with kyc_data := { r.kyc_data with form_completion_date := 0 } }

/-- Non-empty lines of a transcript under its native line breaks (the unit
the spec's Segmenter is supposed to consume). -/
def nonEmptyLines (s : String) : List String :=
  (pySplitNl s).filter (fun l => pyStrip l ≠ "")

/-! ## Helper lemmas -/

theorem pyIsDigit_bounds {c : Char} (h : pyIsDigit c = true) :
    48 ≤ c.toNat ∧ c.toNat ≤ 57 := by
  simpa [pyIsDigit] using h

theorem natOfDigits_foldl_lt (l : List Char) :
    ∀ n : Nat, (∀ c ∈ l, pyIsDigit c = true) →
      l.foldl (fun n c => n * 10 + (c.toNat - 48)) n < (n + 1) * 10 ^ l.length := by
  induction l with
  | nil => intro n _; simp
  | cons c cs ih =>
    intro n h
    have hc := pyIsDigit_bounds (h c (by simp))
    have hd : c.toNat - 48 ≤ 9 := by omega
    have h1 := ih (n * 10 + (c.toNat - 48)) (fun a ha => h a (by simp [ha]))
    calc List.foldl (fun n c => n * 10 + (c.toNat - 48)) (n * 10 + (c.toNat - 48)) cs
        < (n * 10 + (c.toNat - 48) + 1) * 10 ^ cs.length := h1
      _ ≤ ((n + 1) * 10) * 10 ^ cs.length := by
          have : n * 10 + (c.toNat - 48) + 1 ≤ (n + 1) * 10 := by omega
          exact Nat.mul_le_mul_right _ this
      _ = (n + 1) * 10 ^ (cs.length + 1) := by ring
      _ = (n + 1) * 10 ^ (c :: cs).length := by simp

theorem natOfDigits_lt (l : List Char) (h : ∀ c ∈ l, pyIsDigit c = true) :
    natOfDigits l < 10 ^ l.length := by
  have := natOfDigits_foldl_lt l 0 h
  simpa [natOfDigits] using this

theorem takeDigitsN_shape :
    ∀ (n : Nat) (l ds r : List Char), takeDigitsN n l = some (ds, r) →
      ds.length = n ∧ ∀ c ∈ ds, pyIsDigit c = true := by
  intro n
  induction n with
  | zero =>
    intro l ds r h
    simp [takeDigitsN] at h
    simp [h.1]
  | succ m ih =>
    intro l ds r h
    match l with
    | [] => simp [takeDigitsN] at h
    | c :: cs =>
      by_cases hc : pyIsDigit c = true
      · cases htd : takeDigitsN m cs with
        | none => simp [takeDigitsN, hc, htd] at h
        | some p =>
          simp [takeDigitsN, hc, htd] at h
          obtain ⟨hl, hall⟩ := ih cs p.1 p.2 htd
          constructor
          · simp [← h.1, hl]
          · intro x hx
            rw [← h.1] at hx
            rcases List.mem_cons.mp hx with hx | hx
            · subst hx; exact hc
            · exact hall x hx
      · simp [takeDigitsN, hc] at h

theorem ageAt_shape {l ds : List Char} (h : ageAt l = some ds) :
    ds ≠ [] ∧ (∀ c ∈ ds, pyIsDigit c = true) ∧ ds.length ≤ 2 := by
  unfold ageAt at h
  cases h2 : takeDigitsN 2 l with
  | some p =>
    rw [h2] at h
    by_cases ht : ageTail p.2 = true
    · simp [ht] at h
      obtain ⟨hl, hall⟩ := takeDigitsN_shape 2 l p.1 p.2 h2
      subst h
      exact ⟨by intro he; simp [he] at hl, hall, by omega⟩
    · simp [ht] at h
      cases h1 : takeDigitsN 1 l with
      | some q =>
        rw [h1] at h
        obtain ⟨hl, hall⟩ := takeDigitsN_shape 1 l q.1 q.2 h1
        by_cases htq : ageTail q.2 = true
        · simp [htq] at h
          subst h
          exact ⟨by intro he; simp [he] at hl, hall, by omega⟩
        · simp [htq] at h
      | none => rw [h1] at h; simp at h
  | none =>
    rw [h2] at h
    cases h1 : takeDigitsN 1 l with
    | some q =>
      rw [h1] at h
      obtain ⟨hl, hall⟩ := takeDigitsN_shape 1 l q.1 q.2 h1
      by_cases htq : ageTail q.2 = true
      · simp [htq] at h
        subst h
        exact ⟨by intro he; simp [he] at hl, hall, by omega⟩
      · simp [htq] at h
    | none => rw [h1] at h; simp at h

theorem ageScan_shape :
    ∀ {l ds : List Char}, ageScan l = some ds →
      ds ≠ [] ∧ (∀ c ∈ ds, pyIsDigit c = true) ∧ ds.length ≤ 2 := by
  intro l
  induction l with
  | nil => intro ds h; simp [ageScan] at h
  | cons c cs ih =>
    intro ds h
    unfold ageScan at h
    cases ha : ageAt (c :: cs) with
    | some v => rw [ha] at h; simp at h; subst h; exact ageAt_shape ha
    | none => rw [ha] at h; simp at h; exact ih h

theorem mem_takeWhile {p : Char → Bool} :
    ∀ {l : List Char} {c : Char}, c ∈ l.takeWhile p → p c = true := by
  intro l
  induction l with
  | nil => intro c h; simp [List.takeWhile] at h
  | cons a as ih =>
    intro c h
    by_cases ha : p a = true
    · rw [List.takeWhile_cons, if_pos ha] at h
      rcases List.mem_cons.mp h with h | h
      · subst h; exact ha
      · exact ih h
    · rw [List.takeWhile_cons, if_neg ha] at h
      simp at h

theorem takeWhile_self {p : Char → Bool} :
    ∀ {l : List Char}, (∀ c ∈ l, p c = true) → l.takeWhile p = l := by
  intro l
  induction l with
  | nil => intro _; simp
  | cons a as ih =>
    intro h
    rw [List.takeWhile_cons, if_pos (h a (by simp))]
    simp [ih (fun c hc => h c (by simp [hc]))]

theorem dropWhile_nil {p : Char → Bool} :
    ∀ {l : List Char}, (∀ c ∈ l, p c = true) → l.dropWhile p = [] := by
  intro l
  induction l with
  | nil => intro _; simp
  | cons a as ih =>
    intro h
    rw [List.dropWhile_cons, if_pos (h a (by simp))]
    exact ih (fun c hc => h c (by simp [hc]))

theorem takeWhile_append_stop {p : Char → Bool} {y : Char} :
    ∀ {xs : List Char}, (∀ c ∈ xs, p c = true) → p y = false → ∀ ys,
      (xs ++ y :: ys).takeWhile p = xs ∧ (xs ++ y :: ys).dropWhile p = y :: ys := by
  intro xs
  induction xs with
  | nil =>
    intro _ hy ys
    simp [List.takeWhile_cons, List.dropWhile_cons, hy]
  | cons a as ih =>
    intro h hy ys
    have ha : p a = true := h a (by simp)
    obtain ⟨h1, h2⟩ := ih (fun c hc => h c (by simp [hc])) hy ys
    constructor
    · rw [List.cons_append, List.takeWhile_cons, if_pos ha, h1]
    · rw [List.cons_append, List.dropWhile_cons, if_pos ha, h2]

theorem pyFloatQ_digits {l : List Char} (hne : l ≠ [])
    (hall : ∀ c ∈ l, pyIsDigit c = true) :
    pyFloatQ l = some ((natOfDigits l : ℚ)) := by
  unfold pyFloatQ
  rw [takeWhile_self hall, dropWhile_nil hall]
  cases l with
  | nil => exact absurd rfl hne
  | cons a as => simp

theorem pyFloatQ_frac {ip fr : List Char} (hne : ip ≠ [])
    (hip : ∀ c ∈ ip, pyIsDigit c = true) (hfr_ne : fr ≠ [])
    (hfr : ∀ c ∈ fr, pyIsDigit c = true) :
    ∃ q, pyFloatQ (ip ++ '.' :: fr) = some q := by
  unfold pyFloatQ
  obtain ⟨h1, h2⟩ :=
    takeWhile_append_stop hip (show pyIsDigit '.' = false by decide) fr
  rw [h1, h2]
  have hie : ip.isEmpty = false := by cases ip with
    | nil => exact absurd rfl hne
    | cons a as => simp
  have hfe : fr.isEmpty = false := by cases fr with
    | nil => exact absurd rfl hfr_ne
    | cons a as => simp
  have hfa : fr.all pyIsDigit = true := List.all_eq_true.mpr hfr
  simp [hie, hfe, hfa]

theorem numCapture_good :
    ∀ {l cap : List Char}, numCapture l = some cap → ∃ q, pyFloatQ cap = some q := by
  intro l
  induction l with
  | nil => intro cap h; simp [numCapture] at h
  | cons c cs ih =>
    intro cap h
    by_cases hc : pyIsDigit c = true
    · unfold numCapture at h
      rw [if_pos hc] at h
      have hip_ne : (c :: cs).takeWhile pyIsDigit ≠ [] := by
        rw [List.takeWhile_cons, if_pos hc]; simp
      have hip_all : ∀ x ∈ (c :: cs).takeWhile pyIsDigit, pyIsDigit x = true :=
        fun x hx => mem_takeWhile hx
      dsimp only at h
      split at h
      · -- dropWhile = '.' :: r2
        rename_i r2 heq
        split at h
        · -- r2.takeWhile = []
          have h' : (c :: cs).takeWhile pyIsDigit = cap := by
            injection h
          subst h'
          exact ⟨_, pyFloatQ_digits hip_ne hip_all⟩
        · -- r2.takeWhile is non-empty (catch-all branch of the inner match)
          rename_i hfrne
          have h' : (c :: cs).takeWhile pyIsDigit ++ '.' :: r2.takeWhile pyIsDigit = cap := by
            injection h
          subst h'
          exact pyFloatQ_frac hip_ne hip_all (fun he => hfrne he)
            (fun x hx => mem_takeWhile hx)
      · -- dropWhile is [] or does not start with '.'
        have h' : (c :: cs).takeWhile pyIsDigit = cap := by injection h
        subst h'
        exact ⟨_, pyFloatQ_digits hip_ne hip_all⟩
    · unfold numCapture at h
      rw [if_neg hc] at h
      exact ih h

theorem parse_currencyE_ok (value : String) :
    parse_currencyE value = .ok (parse_currency value) := by
  unfold parse_currencyE parse_currency
  dsimp only
  split
  · cases hnc : numCapture (value.data.filter (fun c => !(c = ',' || c = '$'))) with
    | some cap =>
      obtain ⟨q, hq⟩ := numCapture_good hnc
      simp [pyFloatE, hq, Except.map]
    | none => simp
  · split
    · cases hnc : numCapture (value.data.filter (fun c => !(c = ',' || c = '$'))) with
      | some cap =>
        obtain ⟨q, hq⟩ := numCapture_good hnc
        simp [pyFloatE, hq, Except.map]
      | none => simp
    · cases hnc : numCapture (value.data.filter (fun c => !(c = ',' || c = '$'))) with
      | some cap =>
        obtain ⟨q, hq⟩ := numCapture_good hnc
        simp [pyFloatE, hq, Except.map]
      | none => simp

theorem isValidDate_jan1 {y : Int} (h1 : 1 ≤ y) (h2 : y ≤ 9999) :
    isValidDate y 1 1 = true := by
  simp [isValidDate, daysInMonth]
  omega

theorem parse_dateE_ok (nowYear : Int) (value : String)
    (hy1 : 100 ≤ nowYear) (hy2 : nowYear ≤ 9999) :
    parse_dateE nowYear value = .ok (parse_date nowYear value) := by
  have hage : (match ageScan value.data with
      | some ds => (pyIntE ds).bind (fun age => (pyDateE (nowYear - age) 1 1).map some)
      | none => (.ok none : Except Unit (Option PyDate))) =
      .ok ((ageScan value.data).map (fun ds => ⟨nowYear - natOfDigits ds, 1, 1⟩)) := by
    cases hs : ageScan value.data with
    | none => simp
    | some ds =>
      obtain ⟨hne, hall, hlen⟩ := ageScan_shape hs
      have hint : pyIntE ds = .ok (natOfDigits ds) := by
        have : ds.isEmpty = false := by
          cases ds with
          | nil => exact absurd rfl hne
          | cons a as => simp
        simp [pyIntE, this, List.all_eq_true.mpr hall]
      have hlt : natOfDigits ds < 100 := by
        have := natOfDigits_lt ds hall
        have hpow : 10 ^ ds.length ≤ 10 ^ 2 :=
          Nat.pow_le_pow_right (by omega) hlen
        omega
      have hval : isValidDate (nowYear - (natOfDigits ds : Int)) 1 1 = true := by
        apply isValidDate_jan1 <;> omega
      simp [hint, pyDateE, hval, Except.map, Except.bind]
  unfold parse_dateE parse_date
  dsimp only
  cases h1 : dmyScan '/' value.data with
  | some v =>
    obtain ⟨m, d, y⟩ := v
    by_cases hv : isValidDate y m d = true
    · simp [hv]
    · simp [hv]
      cases h2 : dmyScan '-' value.data with
      | some w =>
        obtain ⟨m2, d2, y2⟩ := w
        by_cases hw : isValidDate y2 m2 d2 = true
        · simp [hw]
        · simp [hw]; exact hage
      | none => exact hage
  | none =>
    cases h2 : dmyScan '-' value.data with
    | some w =>
      obtain ⟨m2, d2, y2⟩ := w
      by_cases hw : isValidDate y2 m2 d2 = true
      · simp [hw]
      · simp [hw]; exact hage
    | none => exact hage

theorem date_of_birth_directE_ok (nowYear : Int) (text : String)
    (hy1 : 100 ≤ nowYear) (hy2 : nowYear ≤ 9999) :
    date_of_birth_directE nowYear text = .ok (date_of_birth_direct nowYear text) := by
  unfold date_of_birth_directE date_of_birth_direct
  cases extract_first_match date_of_birth_patterns text with
  | some v => simp [parse_dateE_ok nowYear v hy1 hy2]
  | none => simp

theorem annual_income_directE_ok (text : String) :
    annual_income_directE text = .ok (annual_income_direct text) := by
  unfold annual_income_directE annual_income_direct
  cases extract_first_match annual_income_patterns text with
  | some v => simp [parse_currencyE_ok v]
  | none => simp

theorem net_worth_directE_ok (text : String) :
    net_worth_directE text = .ok (net_worth_direct text) := by
  unfold net_worth_directE net_worth_direct
  cases extract_first_match net_worth_patterns text with
  | some v => simp [parse_currencyE_ok v]
  | none => simp

theorem regexPersonPassE_ok (nowYear : Int) (text : String) (p : PersonalInfo)
    (hy1 : 100 ≤ nowYear) (hy2 : nowYear ≤ 9999) :
    regexPersonPassE nowYear text p = .ok (regexPersonPass nowYear text p) := by
  unfold regexPersonPassE regexPersonPass
  simp [date_of_birth_directE_ok nowYear text hy1 hy2, Except.map]

theorem qaPersonPassE_ok (nowYear : Int) (fm : List (String × List QAPair))
    (p : PersonalInfo) (hy1 : 100 ≤ nowYear) (hy2 : nowYear ≤ 9999) :
    qaPersonPassE nowYear fm p = .ok (qaPersonPass nowYear fm p) := by
  unfold qaPersonPassE qaPersonPass
  cases firstMatchedAnswer fm "personal_info.date_of_birth" with
  | some a => simp [date_of_birth_directE_ok nowYear a hy1 hy2, Except.map]
  | none => simp [Except.map]

theorem extract_personal_infoE_ok (ecap : Option (String → List (String × String)))
    (text : String) (qa_pairs : List QAPair) (nowYear : Int)
    (hy1 : 100 ≤ nowYear) (hy2 : nowYear ≤ 9999) :
    extract_personal_infoE ecap text qa_pairs nowYear =
      .ok (extract_personal_info ecap text qa_pairs nowYear) := by
  unfold extract_personal_infoE extract_personal_info
  cases ecap with
  | none =>
    simp [regexPersonPassE_ok nowYear text _ hy1 hy2, Except.bind,
      qaPersonPassE_ok nowYear _ _ hy1 hy2]
  | some f =>
    simp [regexPersonPassE_ok nowYear text _ hy1 hy2, Except.bind,
      qaPersonPassE_ok nowYear _ _ hy1 hy2]

theorem extract_employment_infoE_ok (text : String) (qa_pairs : List QAPair) :
    extract_employment_infoE text qa_pairs = .ok (extract_employment_info text qa_pairs) := by
  unfold extract_employment_infoE
  simp [annual_income_directE_ok text, net_worth_directE_ok text, Except.bind, Except.map]
  unfold extract_employment_info
  rfl

theorem extract_kyc_dataE_ok (pt : ProcessedTranscript)
    (ecap : Option (String → List (String × String))) (clock : Clock)
    (hy1 : 100 ≤ clock.year) (hy2 : clock.year ≤ 9999) :
    extract_kyc_dataE pt ecap clock = .ok (extract_kyc_data pt ecap clock) := by
  unfold extract_kyc_dataE extract_kyc_data assemble_kyc_data
  simp [extract_personal_infoE_ok ecap (client_text pt) pt.qa_pairs clock.year hy1 hy2,
    extract_employment_infoE_ok (client_text pt) pt.qa_pairs, Except.bind, Except.map]

/-- Claim C6: for every input, however degenerate, extraction raises no
exception and produces a valid (possibly empty) `ExtractionResult` — the
exception-level pipeline always returns `.ok` of the pure pipeline's result,
for any transcript, any optional capabilities, and any clock whose year is in
the range real wall clocks produce (the age branch of `parse_date` calls
`date(now.year - age, 1, 1)` unguarded, which would raise only for clock
years below 100; `date` also requires years at most 9999). -/
theorem run_pipelineE_ok (raw : String) (tcap : Option (String → List String))
    (ecap : Option (String → List (String × String))) (clock : Clock)
    (hy1 : 100 ≤ clock.year) (hy2 : clock.year ≤ 9999) :
    run_pipelineE raw tcap ecap clock = .ok (run_pipeline raw tcap ecap clock) := by
  unfold run_pipelineE run_pipeline
  exact extract_kyc_dataE_ok _ ecap clock hy1 hy2

/-- The fold step of `extract_qa_pairs` agrees pointwise with the (amended)
spec-side linker step. -/
theorem qa_step_eq :
    (fun (st : Option String × List QAPair) (seg : TranscriptSegment) =>
      if seg.segment_type = "question" then (some seg.content, st.2)
      else if seg.segment_type = "answer" && truthyS st.1 then
        (none, st.2 ++ [⟨st.1.getD "", seg.content⟩])
      else st) = qa_linker_spec_step := by
  funext st seg
  unfold qa_linker_spec_step
  by_cases hq : seg.segment_type = "question"
  · simp [hq]
  · by_cases ha : seg.segment_type = "answer"
    · cases hst : st.1 with
      | none => simp [hq, ha, hst, truthyS]
      | some q =>
        by_cases hqe : q = ""
        · simp [hq, ha, hst, hqe, truthyS]
        · simp [hq, ha, hst, hqe, truthyS]
    · simp [hq, ha]

set_option maxHeartbeats 3200000 in
/-- Every field after tiers 2 and 3 is the truthy-override chain of the tier
values over the tier-1 seed `p`; the three fields no tier targets pass
through unchanged. -/
theorem pass_personal_fields (nowYear : Int) (text : String)
    (fm : List (String × List QAPair)) (p : PersonalInfo) :
    (qaPersonPass nowYear fm (regexPersonPass nowYear text p)).first_name =
      overS (overS p.first_name (first_name_direct text))
        (match firstMatchedAnswer fm "personal_info.first_name" with
         | some a => first_name_direct a
         | none => none) ∧
    (qaPersonPass nowYear fm (regexPersonPass nowYear text p)).last_name =
      overS (overS p.last_name (last_name_direct text))
        (match firstMatchedAnswer fm "personal_info.last_name" with
         | some a => last_name_direct a
         | none => none) ∧
    (qaPersonPass nowYear fm (regexPersonPass nowYear text p)).email =
      overS (overS p.email (email_direct text))
        (match firstMatchedAnswer fm "personal_info.email" with
         | some a => email_direct a
         | none => none) ∧
    (qaPersonPass nowYear fm (regexPersonPass nowYear text p)).phone_number =
      overS (overS p.phone_number (phone_number_direct text))
        (match firstMatchedAnswer fm "personal_info.phone_number" with
         | some a => phone_number_direct a
         | none => none) ∧
    (qaPersonPass nowYear fm (regexPersonPass nowYear text p)).date_of_birth =
      overD (overD p.date_of_birth (date_of_birth_direct nowYear text))
        (match firstMatchedAnswer fm "personal_info.date_of_birth" with
         | some a => date_of_birth_direct nowYear a
         | none => none) ∧
    (qaPersonPass nowYear fm (regexPersonPass nowYear text p)).marital_status =
      overM p.marital_status
        (match firstMatchedAnswer fm "personal_info.marital_status" with
         | some a => marital_from_answer a
         | none => none) ∧
    (qaPersonPass nowYear fm (regexPersonPass nowYear text p)).middle_name =
      p.middle_name ∧
    (qaPersonPass nowYear fm (regexPersonPass nowYear text p)).social_security_number =
      p.social_security_number ∧
    (qaPersonPass nowYear fm (regexPersonPass nowYear text p)).number_of_dependents =
      p.number_of_dependents := by
  unfold qaPersonPass regexPersonPass
  cases h1 : firstMatchedAnswer fm "personal_info.first_name" <;>
    cases h2 : firstMatchedAnswer fm "personal_info.last_name" <;>
      cases h3 : firstMatchedAnswer fm "personal_info.email" <;>
        cases h4 : firstMatchedAnswer fm "personal_info.phone_number" <;>
          cases h5 : firstMatchedAnswer fm "personal_info.date_of_birth" <;>
            cases h6 : firstMatchedAnswer fm "personal_info.marital_status" <;>
              simp [overS, overD, overM, truthyS]

/-- Transcribes tier 1 (`nerPersonPass`) writes only `first_name` and
`last_name`; every other field of the seed passes through unchanged. -/
theorem nerPersonPass_untouched (ents : List (String × String)) :
    ∀ p : PersonalInfo,
      (nerPersonPass p ents).middle_name = p.middle_name ∧
      (nerPersonPass p ents).date_of_birth = p.date_of_birth ∧
      (nerPersonPass p ents).social_security_number = p.social_security_number ∧
      (nerPersonPass p ents).phone_number = p.phone_number ∧
      (nerPersonPass p ents).email = p.email ∧
      (nerPersonPass p ents).marital_status = p.marital_status ∧
      (nerPersonPass p ents).number_of_dependents = p.number_of_dependents := by
  induction ents with
  | nil => intro p; exact ⟨rfl, rfl, rfl, rfl, rfl, rfl, rfl⟩
  | cons e es ih =>
    intro p
    unfold nerPersonPass at ih ⊢
    rw [List.foldl_cons]
    refine ⟨(ih _).1.trans ?_, (ih _).2.1.trans ?_, (ih _).2.2.1.trans ?_,
      (ih _).2.2.2.1.trans ?_, (ih _).2.2.2.2.1.trans ?_,
      (ih _).2.2.2.2.2.1.trans ?_, (ih _).2.2.2.2.2.2.trans ?_⟩ <;>
    · by_cases h : (e.2 = "PERSON" && !truthyS p.first_name) = true
      · simp only [h, if_true]
        split <;> split <;> rfl
      · simp [h]

/-- Transcribes `get_completion_percentage` never reads `form_completion_date` (the
timestamp is counted as completed unconditionally). -/
theorem gcp_stamp (k : KYCData) (s : Nat) :
    get_completion_percentage { k with form_completion_date := s } =
      get_completion_percentage k := rfl

/-- Transcribes `assemble_kyc_data` uses the clock only through `year` (sections) and
`stamp` (the completion date). -/
theorem assemble_stamp (pt : ProcessedTranscript)
    (ecap : Option (String → List (String × String))) (y : Int) (s s' : Nat) :
    assemble_kyc_data pt ecap ⟨y, s⟩ =
      { assemble_kyc_data pt ecap ⟨y, s'⟩ with form_completion_date := s } := rfl

/-- Transcribes `numCapture` finds nothing in digit-free text. -/
theorem numCapture_none :
    ∀ {l : List Char}, (∀ c ∈ l, pyIsDigit c = false) → numCapture l = none := by
  intro l
  induction l with
  | nil => intro _; simp [numCapture]
  | cons c cs ih =>
    intro h
    unfold numCapture
    rw [if_neg (by simp [h c (by simp)])]
    exact ih (fun x hx => h x (by simp [hx]))

/-- A filter keeps something exactly when some element satisfies the
predicate (links "the matched-pair list is non-empty" to "at least one QA
pair matches"). -/
theorem filter_ne_nil_iff_any {α : Type} (p : α → Bool) :
    ∀ l : List α, l.filter p ≠ [] ↔ l.any p = true := by
  intro l
  induction l with
  | nil => simp
  | cons a as ih => by_cases h : p a = true <;> simp [List.filter_cons, h, ih]

/-! ## Claim theorems -/

/-- Claim C1: the spec says `process_transcript` produces exactly one
utterance per non-empty line of the original transcript.  The code does not:
`clean_transcript` collapses every whitespace run — newlines included — into
single spaces before `segment_transcript` splits on `'\n'`, so the two-line
transcript below (two non-empty lines) yields a single merged utterance. -/
theorem claim_C1_pipeline_collapses_lines :
    (process_transcript none
        "Advisor: What is your name?\nClient: My name is John Smith.").segments =
      [⟨"advisor", "What is your name? Client: My name is John Smith.", "question"⟩] ∧
    (process_transcript none
        "Advisor: What is your name?\nClient: My name is John Smith.").total_segments = 1 ∧
    (nonEmptyLines "Advisor: What is your name?\nClient: My name is John Smith.").length
      = 2 :=
  ⟨by decide, by decide, by decide⟩

/-- Claim C2 counterexample: the direct-text regex tier succeeds on
`"call me Alice"` with value `"Alice"`, yet the final `first_name` is the
matched-answer tier's `"Bob"` — a later tier changed a value an earlier tier
had already produced, contradicting first-successful-tier-wins. -/
theorem claim_C2_counterexample :
    first_name_direct "call me Alice" = some "Alice" ∧
    (extract_personal_info none "call me Alice"
        [⟨"what is your first name", "call me Bob"⟩] 2024).first_name = some "Bob" :=
  ⟨by decide, by decide⟩

/-- Claim C2 (amended): within `extract_personal_info` the tiers run in the
documented order, but each later tier that produces a truthy value overwrites
the earlier one — for *every* field the *last* successful tier determines the
final value.  Stated for all nine `PersonalInfo` fields: the six the tiers
target are the truthy-override chain NER-seed ← direct-regex ← matched-answer
(for `marital_status` only the matched-answer tier exists, over the NER seed),
and the three fields no tier targets (`middle_name`,
`social_security_number`, `number_of_dependents`) are never set. -/
theorem claim_C2_amended (ecap : Option (String → List (String × String)))
    (text : String) (qa_pairs : List QAPair) (nowYear : Int) :
    (extract_personal_info ecap text qa_pairs nowYear).first_name =
      overS (overS (ner_tier ecap text).first_name (first_name_direct text))
        (first_name_answer_tier qa_pairs) ∧
    (extract_personal_info ecap text qa_pairs nowYear).last_name =
      overS (overS (ner_tier ecap text).last_name (last_name_direct text))
        (last_name_answer_tier qa_pairs) ∧
    (extract_personal_info ecap text qa_pairs nowYear).email =
      overS (overS (ner_tier ecap text).email (email_direct text))
        (email_answer_tier qa_pairs) ∧
    (extract_personal_info ecap text qa_pairs nowYear).phone_number =
      overS (overS (ner_tier ecap text).phone_number (phone_number_direct text))
        (phone_number_answer_tier qa_pairs) ∧
    (extract_personal_info ecap text qa_pairs nowYear).date_of_birth =
      overD (overD (ner_tier ecap text).date_of_birth
          (date_of_birth_direct nowYear text))
        (date_of_birth_answer_tier nowYear qa_pairs) ∧
    (extract_personal_info ecap text qa_pairs nowYear).marital_status =
      overM (ner_tier ecap text).marital_status
        (marital_status_answer_tier qa_pairs) ∧
    (extract_personal_info ecap text qa_pairs nowYear).middle_name = none ∧
    (extract_personal_info ecap text qa_pairs nowYear).social_security_number = none ∧
    (extract_personal_info ecap text qa_pairs nowYear).number_of_dependents = none := by
  have hpass := pass_personal_fields nowYear text
    (match_questions_to_kyc_fields qa_pairs) (ner_tier ecap text)
  have hun :
      (ner_tier ecap text).middle_name = none ∧
      (ner_tier ecap text).social_security_number = none ∧
      (ner_tier ecap text).number_of_dependents = none := by
    cases ecap with
    | none => exact ⟨rfl, rfl, rfl⟩
    | some f =>
      have h := nerPersonPass_untouched (f text) {}
      exact ⟨h.1, h.2.2.1, h.2.2.2.2.2.2⟩
  have hbody :
      extract_personal_info ecap text qa_pairs nowYear =
        qaPersonPass nowYear (match_questions_to_kyc_fields qa_pairs)
          (regexPersonPass nowYear text (ner_tier ecap text)) := by
    unfold extract_personal_info ner_tier
    cases ecap <;> rfl
  rw [hbody]
  unfold first_name_answer_tier last_name_answer_tier email_answer_tier
    phone_number_answer_tier date_of_birth_answer_tier marital_status_answer_tier
  exact ⟨hpass.1, hpass.2.1, hpass.2.2.1, hpass.2.2.2.1, hpass.2.2.2.2.1,
    hpass.2.2.2.2.2.1,
    hpass.2.2.2.2.2.2.1.trans hun.1,
    hpass.2.2.2.2.2.2.2.1.trans hun.2.1,
    hpass.2.2.2.2.2.2.2.2.trans hun.2.2⟩

attribute [local semireducible] Rat.mul Rat.add Rat.inv in
/-- Claim C3 counterexample: on the empty transcript no field is populated,
yet the returned confidence map carries an entry (`0.3`) for
`personal_info.first_name` — confidence entries exist even for unset fields,
contradicting "no confidence entry exists for a field that was left unset". -/
theorem claim_C3_counterexample :
    ((run_pipeline "" none none ⟨2024, 0⟩).confidence_scores.find?
        (fun e => e.1 = "personal_info.first_name")) =
      some ("personal_info.first_name", 3 / 10) ∧
    (run_pipeline "" none none ⟨2024, 0⟩).kyc_data.personal_info.first_name = none :=
  ⟨by decide, by decide⟩

/-- Claim C3 (amended): the confidence map always contains exactly the twelve
static field paths of the question-pattern table, entry for entry the
matcher's output scored `0.8` when that path has at least one matched QA pair
and `0.3` otherwise, irrespective of whether the field was populated (the
record argument is ignored); every value lies in `[0, 1]`.  The last conjunct
states the anchoring rule independently of the matcher's output list: for
every path of the static table, the map holds `0.8` for it exactly when some
QA pair's lowercased question matches one of the path's patterns, else
`0.3`. -/
theorem claim_C3_amended (kyc kyc' : KYCData) (qa_pairs : List QAPair) :
    (calculate_confidence_scores kyc qa_pairs).map Prod.fst =
      kyc_question_patterns.map Prod.fst ∧
    calculate_confidence_scores kyc qa_pairs = calculate_confidence_scores kyc' qa_pairs ∧
    (∀ e ∈ calculate_confidence_scores kyc qa_pairs,
      ((0 : ℚ) ≤ e.2 ∧ e.2 ≤ 1) ∧ (e.2 = 4 / 5 ∨ e.2 = 3 / 10)) ∧
    (∀ i : Nat, (calculate_confidence_scores kyc qa_pairs)[i]? =
      ((match_questions_to_kyc_fields qa_pairs)[i]?).map
        (fun e => (e.1, if e.2 ≠ [] then (4 / 5 : ℚ) else (3 / 10 : ℚ)))) ∧
    ∀ fe ∈ kyc_question_patterns,
      (fe.1,
        if qa_pairs.any (fun qp => fe.2.any (fun p => reTest true p (pyLower qp.question)))
        then (4 / 5 : ℚ) else (3 / 10 : ℚ)) ∈
        calculate_confidence_scores kyc qa_pairs := by
  refine ⟨?_, rfl, ?_, ?_, ?_⟩
  · unfold calculate_confidence_scores match_questions_to_kyc_fields
    simp [List.map_map, Function.comp]
  · intro e he
    unfold calculate_confidence_scores at he
    obtain ⟨x, _, hex⟩ := List.mem_map.mp he
    by_cases hx : x.2 ≠ []
    · rw [if_pos hx] at hex
      rw [← hex]
      norm_num
    · rw [if_neg hx] at hex
      rw [← hex]
      norm_num
  · intro i
    unfold calculate_confidence_scores
    simp [List.getElem?_map]
  · intro fe hfe
    have hmem : (fe.1, qa_pairs.filter
        (fun qp => fe.2.any (fun p => reTest true p (pyLower qp.question)))) ∈
        match_questions_to_kyc_fields qa_pairs := by
      unfold match_questions_to_kyc_fields
      exact List.mem_map_of_mem _ hfe
    have hmem2 := List.mem_map_of_mem
      (fun e : String × List QAPair =>
        (e.1, if e.2 ≠ [] then (4 / 5 : ℚ) else (3 / 10 : ℚ))) hmem
    unfold calculate_confidence_scores
    dsimp only at hmem2 ⊢
    by_cases hc : qa_pairs.any
        (fun qp => fe.2.any (fun p => reTest true p (pyLower qp.question))) = true
    · rw [if_pos hc]
      rw [if_pos ((filter_ne_nil_iff_any _ qa_pairs).mpr hc)] at hmem2
      exact hmem2
    · rw [if_neg hc]
      rw [if_neg (fun h' => hc ((filter_ne_nil_iff_any _ qa_pairs).mp h'))] at hmem2
      exact hmem2

attribute [local semireducible] Rat.mul Rat.add Rat.inv in
/-- Claim C3 amended witness at a concrete run: with one QA pair matching the
first-name patterns, the map holds `0.8` for `personal_info.first_name` and
`0.3` for the unanchored `employment_info.net_worth`; the bounds conjunct of
the theorem is applied at the concrete `0.8` entry. -/
theorem claim_C3_amended_witness :
    ("personal_info.first_name", (4 / 5 : ℚ)) ∈
      calculate_confidence_scores { form_completion_date := 0 }
        [⟨"what is your first name", "Bob"⟩] ∧
    ("employment_info.net_worth", (3 / 10 : ℚ)) ∈
      calculate_confidence_scores { form_completion_date := 0 }
        [⟨"what is your first name", "Bob"⟩] ∧
    (((0 : ℚ) ≤ (4 / 5 : ℚ) ∧ (4 / 5 : ℚ) ≤ 1) ∧
      ((4 / 5 : ℚ) = 4 / 5 ∨ (4 / 5 : ℚ) = 3 / 10)) :=
  ⟨by decide, by decide,
    (claim_C3_amended { form_completion_date := 0 } { form_completion_date := 1 }
        [⟨"what is your first name", "Bob"⟩]).2.2.1
      ("personal_info.first_name", (4 / 5 : ℚ)) (by decide)⟩

attribute [local semireducible] Rat.mul Rat.add Rat.inv in
/-- Claim C4 counterexample: the empty transcript does *not* yield completion
0% — the schema defaults (`country = "USA"`, the mailing-address flag, the
empty previous-investment list) and the completion timestamp count as
completed, giving 400/31 ≈ 12.9%. -/
theorem claim_C4_counterexample :
    get_completion_percentage (run_pipeline "" none none ⟨2024, 0⟩).kyc_data ≠ 0 :=
  by decide

attribute [local semireducible] Rat.mul Rat.add Rat.inv in
/-- Claim C4 (amended): an empty transcript yields a record whose four
sections all equal their schema defaults (no extracted values), completion
percentage exactly 400/31 (the four default-completed leaves over the 31
counted fields, which include `additional_notes` and the timestamp at top
level), and the processing notes contain the completion note plus the
low-completion advisory; extraction is not treated as a failure. -/
theorem claim_C4_amended :
    (run_pipeline "" none none ⟨2024, 0⟩).kyc_data.personal_info = ({} : PersonalInfo) ∧
    (run_pipeline "" none none ⟨2024, 0⟩).kyc_data.address = ({} : Address) ∧
    (run_pipeline "" none none ⟨2024, 0⟩).kyc_data.employment_info = ({} : EmploymentInfo) ∧
    (run_pipeline "" none none ⟨2024, 0⟩).kyc_data.investment_profile
      = ({} : InvestmentProfile) ∧
    get_completion_percentage (run_pipeline "" none none ⟨2024, 0⟩).kyc_data = 400 / 31 ∧
    (run_pipeline "" none none ⟨2024, 0⟩).processing_notes =
      [Note.completion (400 / 31), Note.low_completion] :=
  ⟨by decide, by decide, by decide, by decide, by decide, by decide⟩

/-- Claim C5 counterexample: a held question *is* present (the question
utterance stored `""`), yet the following answer emits no pair — Python's
truthiness test `and current_question` treats the empty-string question as
absent, contradicting "an answer while a question is held emits exactly one
pair". -/
theorem claim_C5_counterexample :
    extract_qa_pairs [⟨"advisor", "", "question"⟩, ⟨"client", "Fine", "answer"⟩] = [] ∧
    extract_qa_pairs [⟨"advisor", "", "question"⟩, ⟨"client", "Fine", "answer"⟩] ≠
      [⟨"", "Fine"⟩] :=
  ⟨by decide, by decide⟩

/-- Claim C5 (amended): QA pairing is the single-pass two-state machine of the
spec with one emendation — an answer emits a pair (and clears the state) only
when the held question is *non-empty*; a held empty-string question behaves as
none for emission (and stays held).  The typed sequence Q1 A1 Q2 A2 yields
exactly the two pairs in order. -/
theorem claim_C5_amended :
    (∀ segments, extract_qa_pairs segments = extract_qa_pairs_spec segments) ∧
    extract_qa_pairs [⟨"advisor", "Q1?", "question"⟩, ⟨"client", "A1", "answer"⟩,
        ⟨"advisor", "Q2?", "question"⟩, ⟨"client", "A2", "answer"⟩] =
      [⟨"Q1?", "A1"⟩, ⟨"Q2?", "A2"⟩] := by
  constructor
  · intro segments
    unfold extract_qa_pairs extract_qa_pairs_spec
    rw [qa_step_eq]
  · decide

/-- Claim C6 witness: a concrete transcript, capabilities and clock at which
the no-raise theorem applies. -/
theorem claim_C6_no_raise_witness :
    (100 ≤ (⟨2024, 7⟩ : Clock).year ∧ (⟨2024, 7⟩ : Clock).year ≤ 9999) ∧
    run_pipelineE "Client: I am 40 years old." none none ⟨2024, 7⟩ =
      .ok (run_pipeline "Client: I am 40 years old." none none ⟨2024, 7⟩) :=
  ⟨⟨by decide, by decide⟩,
    run_pipelineE_ok "Client: I am 40 years old." none none ⟨2024, 7⟩
      (by decide) (by decide)⟩

attribute [local semireducible] Rat.mul Rat.add Rat.inv in
/-- Claim C7 counterexample: two runs on the identical (empty) transcript at
two different wall-clock instants give different results — the record's
`form_completion_date` copies `datetime.now()` — so extraction does depend on
wall-clock time. -/
theorem claim_C7_counterexample :
    run_pipeline "" none none ⟨2024, 0⟩ ≠ run_pipeline "" none none ⟨2024, 1⟩ :=
  by decide

/-- Claim C7 (amended): extraction is a pure function of the transcript, the
frozen capabilities and the current clock; two runs whose clocks agree on the
year produce identical results apart from the clock-copied
`form_completion_date` (the year also feeds the age→birth-year branch of
`parse_date`). -/
theorem claim_C7_amended (raw : String) (tcap : Option (String → List String))
    (ecap : Option (String → List (String × String))) (c1 c2 : Clock)
    (h : c1.year = c2.year) :
    scrub_completion_date (run_pipeline raw tcap ecap c1) =
      scrub_completion_date (run_pipeline raw tcap ecap c2) := by
  obtain ⟨y1, s1⟩ := c1
  obtain ⟨y2, s2⟩ := c2
  obtain rfl : y1 = y2 := h
  rfl

/-- Claim C7 amended witness: same year, different timestamps, concrete
transcript. -/
theorem claim_C7_amended_witness :
    (⟨2024, 3⟩ : Clock).year = (⟨2024, 9⟩ : Clock).year ∧
    scrub_completion_date (run_pipeline "FA: How old are you?" none none ⟨2024, 3⟩) =
      scrub_completion_date (run_pipeline "FA: How old are you?" none none ⟨2024, 9⟩) :=
  ⟨rfl, claim_C7_amended "FA: How old are you?" none none ⟨2024, 3⟩ ⟨2024, 9⟩ rfl⟩

/-- Claim C8: the first half of the claim holds — `"FA: What is your
income?"` classifies as advisor/question — but the honorific line
`"Mrs. Lee: I earn 80k"` classifies as `unknown`/`statement`, not
client/answer: the pattern `^(Client|Customer|Mr\.|Mrs\.|Ms\.)[:]\s*` demands
a colon immediately after `"Mrs."`, and the generic capitalized-name pattern
fails on the embedded period.  (The repository's own test expects the
analogous `"Mr. Smith: I am 35"` to classify as client.) -/
theorem claim_C8_honorific_bug :
    identify_speaker "FA: What is your income?" = ("advisor", "What is your income?") ∧
    segment_transcript "FA: What is your income?" =
      [⟨"advisor", "What is your income?", "question"⟩] ∧
    identify_speaker "Mrs. Lee: I earn 80k" = ("unknown", "Mrs. Lee: I earn 80k") ∧
    segment_transcript "Mrs. Lee: I earn 80k" =
      [⟨"unknown", "Mrs. Lee: I earn 80k", "statement"⟩] :=
  ⟨by decide, by decide, by decide, by decide⟩

attribute [local semireducible] Rat.mul Rat.add Rat.inv in
/-- Claim C9: the currency normalizer maps `"50k"` to 50000, `"$1,200,000"`
to 1200000 and `"2m"` to 2000000 (exact rational values of the Python float
results), and text containing no digit leaves the field unset. -/
theorem claim_C9_currency :
    parse_currency "50k" = some 50000 ∧
    parse_currency "$1,200,000" = some 1200000 ∧
    parse_currency "2m" = some 2000000 ∧
    ∀ s : String, (∀ c ∈ s.data, pyIsDigit c = false) → parse_currency s = none := by
  refine ⟨by decide, by decide, by decide, ?_⟩
  intro s h
  have hnc : numCapture (s.data.filter (fun c => !(c = ',' || c = '$'))) = none :=
    numCapture_none (fun c hc => h c (List.mem_of_mem_filter hc))
  unfold parse_currency
  dsimp only
  rw [hnc]
  simp

/-- Claim C9 witness: digit-free input, the unset branch of the theorem. -/
theorem claim_C9_currency_witness :
    (∀ c ∈ "no digits here!".data, pyIsDigit c = false) ∧
    parse_currency "no digits here!" = none :=
  ⟨by decide, claim_C9_currency.2.2.2 "no digits here!" (by decide)⟩

/-- Claim C10: the address, employment and investment extractors ignore the
QA-pair list entirely (identical outputs for any two lists), while
personal-info extraction does consult matched answers (shown by a concrete
pair of runs differing only in the QA list). -/
theorem claim_C10_section_independence :
    (∀ (text : String) (qa qa' : List QAPair),
      extract_address text qa = extract_address text qa' ∧
      extract_employment_info text qa = extract_employment_info text qa' ∧
      extract_investment_profile text qa = extract_investment_profile text qa') ∧
    (extract_personal_info none "" [⟨"what is your first name", "call me Bob"⟩] 2024).first_name ≠
      (extract_personal_info none "" [] 2024).first_name :=
  ⟨fun _ _ _ => ⟨rfl, rfl, rfl⟩, by decide⟩
